import Mathlib

/-!
Verification of the article clustering and selection engine of the avactu
repository (src/scripts/cluster.ts), as a shallow embedding in Lean 4.

Modelling conventions:
* JavaScript numbers are modelled as real numbers (`ℝ`); `Math.log` is the
  natural logarithm `Real.log`, `Math.sqrt` is `Real.sqrt`, `Math.round x`
  is `⌊x + 1/2⌋` (round half towards positive infinity, as in JS),
  `Math.min`/`Math.max` are `min`/`max`.
* `Map<string, number>` values built by `buildTfIdf` are modelled as
  association lists `List (String × ℝ)` in key insertion order (the order of
  first occurrence of each term); `Map.has`/`Map.get` become `List.lookup`.
* `Set<string>` values are modelled as duplicate-free lists in insertion
  order; JS `Set` iteration order is insertion order, matching the list.
* Timestamps (`publishedAt`, `Date.now()`) are epoch milliseconds (`ℤ`);
  the source stores ISO strings and converts with `new Date(...).getTime()`.
* `String.prototype.toLowerCase` is modelled by mapping `Char.toLower`
  (ASCII case folding), and the source's Unicode-NFD-decompose-then-strip-
  combining-marks step in `tokenize` is modelled by `stripAccent`, a direct
  table for the accented Latin letters occurring in this repository's data.
* Array iteration with an `assigned` index set (the greedy cluster builder)
  is modelled by structural recursion over the list of still-unassigned
  entries (`greedy` below), which performs the identical traversal.
* `Array.prototype.sort` with comparator `(a, b) => b.importance -
  a.importance` is a stable sort by descending importance; it is modelled by
  the stable insertion sort `sortByImportance`.
-/

namespace Avactu

/-- The three article categories of the pipeline (cluster.ts lines 28, 42). -/
inductive Category where
  | geopolitique
  | economie
  | politique
deriving DecidableEq, Repr

/-- `RawArticle` (cluster.ts lines 21-31). `publishedAt`/`fetchedAt` are epoch
milliseconds. -/
structure RawArticle where
  id : String
  title : String
  description : String
  url : String
  imageUrl : Option String
  source : String
  category : Category
  publishedAt : ℤ
  fetchedAt : ℤ
deriving DecidableEq, Repr

/-- `ArticleCluster` (cluster.ts lines 39-45).  `importance` is integral in
the source (result of `Math.round` then clamping), so it is typed `ℤ`. -/
structure ArticleCluster where
  id : String
  topic : String
  category : Category
  importance : ℤ
  articles : List RawArticle
deriving DecidableEq, Repr

/-- The per-category selection quota `TARGET_CLUSTERS` (cluster.ts lines
57-61), in the object's key insertion order, which is the iteration order of
`Object.entries` in the selector. -/
def TARGET_CLUSTERS : List (Category × ℕ) :=
  [(Category.geopolitique, 4), (Category.economie, 1), (Category.politique, 1)]

/-- `EXCLUDED_KEYWORDS` (cluster.ts lines 64-78), in insertion order. -/
def EXCLUDED_KEYWORDS : List String :=
  ["football", "soccer", "cricket", "rugby", "tennis", "basketball", "golf",
   "match", "goal", "scored", "league", "championship", "tournament", "cup",
   "premier league", "la liga", "serie a", "bundesliga", "champions league",
   "world cup", "euro", "olympic", "olympics", "athlete", "player", "coach",
   "team", "club", "stadium", "referee", "penalty", "offside", "halftime",
   "mbappe", "mbappé", "ronaldo", "messi", "haaland", "real madrid", "barcelona",
   "manchester", "liverpool", "arsenal", "chelsea", "psg", "bayern",
   "t20", "icc", "odi", "test match", "wicket", "batsman", "bowler",
   "celebrity", "movie", "film", "actor", "actress", "singer", "concert",
   "album", "grammy", "oscar", "emmy", "netflix", "disney", "streaming",
   "reality show", "kardashian", "taylor swift", "beyonce"]

/-- `GEO_ENTITIES` (cluster.ts lines 81-115): entity key to surface-form
keyword aliases, in the object's key insertion order. -/
def GEO_ENTITIES : List (String × List String) :=
  [("ukraine", ["ukraine", "ukrainian", "ukrainien", "kiev", "kyiv", "kharkiv", "zelensky", "zelenskyy"]),
   ("russia", ["russia", "russian", "russie", "russe", "moscow", "moscou", "kremlin", "putin", "poutine"]),
   ("usa", ["united states", "états-unis", "etats-unis", "usa", "american", "américain", "washington", "white house", "maison blanche", "trump", "biden"]),
   ("china", ["china", "chinese", "chine", "chinois", "beijing", "pékin", "xi jinping"]),
   ("israel", ["israel", "israeli", "israël", "israélien", "tel aviv", "jerusalem", "netanyahu"]),
   ("palestine", ["palestine", "palestinian", "palestinien", "gaza", "hamas", "west bank", "cisjordanie"]),
   ("iran", ["iran", "iranian", "iranien", "tehran", "téhéran", "khamenei"]),
   ("syria", ["syria", "syrian", "syrie", "syrien", "damascus", "damas", "assad", "sdf", "kurde", "kurdish"]),
   ("france", ["france", "french", "français", "paris", "macron", "élysée"]),
   ("germany", ["germany", "german", "allemagne", "allemand", "berlin", "scholz"]),
   ("uk", ["united kingdom", "royaume-uni", "britain", "british", "britannique", "london", "londres", "starmer", "sunak"]),
   ("eu", ["european union", "union européenne", "brussels", "bruxelles", "eu", "ue"]),
   ("nato", ["nato", "otan", "alliance atlantique"]),
   ("un", ["united nations", "nations unies", "onu", "un"]),
   ("minneapolis", ["minneapolis", "minnesota", "border patrol", "ice", "immigration"]),
   ("greenland", ["greenland", "groenland", "denmark", "danemark"]),
   ("panama", ["panama", "canal"]),
   ("taiwan", ["taiwan", "taïwan", "taipei"]),
   ("north_korea", ["north korea", "corée du nord", "pyongyang", "kim jong"]),
   ("sudan", ["sudan", "soudan", "khartoum"]),
   ("myanmar", ["myanmar", "birmanie", "burma"]),
   ("algeria", ["algeria", "algérie", "alger", "algiers"]),
   ("iraq", ["iraq", "irak", "baghdad", "bagdad"]),
   ("india", ["india", "indian", "inde", "indien", "indienne", "new delhi", "delhi", "modi"]),
   ("japan", ["japan", "japanese", "japon", "japonais", "tokyo"]),
   ("south_korea", ["south korea", "corée du sud", "seoul", "séoul"]),
   ("australia", ["australia", "australian", "australie", "australien", "canberra", "sydney"]),
   ("brazil", ["brazil", "brazilian", "brésil", "brésilien", "brasilia", "lula"]),
   ("mexico", ["mexico", "mexican", "mexique", "mexicain"]),
   ("turkey", ["turkey", "turkish", "turquie", "turc", "ankara", "erdogan"]),
   ("saudi_arabia", ["saudi", "saoudite", "riyadh", "riyad", "mbs"]),
   ("chile", ["chile", "chilean", "chili", "chilien", "santiago"]),
   ("oman", ["oman", "omani", "omanais", "muscat", "mascate"])]

/-- `STOP_WORDS` (cluster.ts lines 118-127), in insertion order. -/
def STOP_WORDS : List String :=
  ["le", "la", "les", "un", "une", "des", "du", "de", "et", "en", "au", "aux",
   "à", "ce", "ces", "cette", "que", "qui", "quoi", "dont", "où", "sur", "sous",
   "par", "pour", "avec", "sans", "dans", "est", "sont", "ont", "être", "avoir",
   "the", "a", "an", "and", "or", "but", "in", "on", "at", "to", "for", "of",
   "with", "by", "from", "is", "are", "was", "were", "be", "been", "being",
   "have", "has", "had", "will", "would", "could", "should", "may", "might",
   "this", "that", "these", "those", "it", "its", "as", "after", "before",
   "news", "live", "update", "breaking", "latest", "new", "nouveau", "nouvelle"]

/-- `text.toLowerCase()`, modelled as ASCII case folding (the repository's
keyword tables and the concrete corpora considered here are matched
case-insensitively only on ASCII letters). -/
def lowerStr (s : String) : String := String.mk (s.toList.map Char.toLower)

/-- `lower.includes(keyword)`: substring containment of `kw` in `text`. -/
def containsKw (text kw : String) : Bool := decide (kw.toList <:+: text.toList)

/-- `isSportOrEntertainment` (cluster.ts lines 132-143): a text is excluded
when at least 2 distinct excluded keywords occur in it as substrings.  The
source counts matches and returns early at 2; counting all matches and
comparing with 2 yields the same boolean. -/
def isSportOrEntertainment (text : String) : Bool :=
  decide (2 ≤ EXCLUDED_KEYWORDS.countP (fun kw => containsKw (lowerStr text) kw))

/-- `extractEntities` (cluster.ts lines 148-162): the set of entity keys any
of whose keyword aliases occurs in the lowercased text, in table order. -/
def extractEntities (text : String) : List String :=
  (GEO_ENTITIES.filter (fun ek => ek.2.any (fun kw => containsKw (lowerStr text) kw))).map Prod.fst

/-- One step of the accent folding of `tokenize`: the source normalizes to
NFD and strips combining marks U+0300-U+036F, turning each accented Latin
letter into its base letter.  Modelled as a direct table for the accented
letters occurring in this repository's data; other characters (all ASCII in
the corpora considered) are unchanged. -/
def stripAccent (c : Char) : Char :=
  match c with
  | 'à' => 'a' | 'á' => 'a' | 'â' => 'a' | 'ä' => 'a' | 'ã' => 'a'
  | 'è' => 'e' | 'é' => 'e' | 'ê' => 'e' | 'ë' => 'e'
  | 'ì' => 'i' | 'í' => 'i' | 'î' => 'i' | 'ï' => 'i'
  | 'ò' => 'o' | 'ó' => 'o' | 'ô' => 'o' | 'ö' => 'o' | 'õ' => 'o'
  | 'ù' => 'u' | 'ú' => 'u' | 'û' => 'u' | 'ü' => 'u'
  | 'ç' => 'c' | 'ñ' => 'n' | 'ÿ' => 'y'
  | _ => c

/-- Is `c` one of the characters kept by the `[^a-z0-9\s]` replacement? -/
def isKeptChar (c : Char) : Bool :=
  (decide ('a' ≤ c) && decide (c ≤ 'z')) || (decide ('0' ≤ c) && decide (c ≤ '9'))

/-- `tokenize` (cluster.ts lines 167-175): lowercase, fold accents, replace
every character outside `[a-z0-9]` by a space (whitespace splitting treats
all whitespace alike, so mapping it to a space is equivalent), split on
space runs, and keep words of length > 2 that are not stop words.  Splitting
on single spaces produces empty pieces for runs of spaces; these are removed
by the length filter, matching the `\s+` split. -/
def tokenize (text : String) : List String :=
  let folded := ((lowerStr text).toList.map stripAccent).map
    (fun c => if isKeptChar c then c else ' ')
  ((folded.splitOn ' ').map String.mk).filter
    (fun w => decide (2 < w.length) && !(w ∈ STOP_WORDS : Bool))

/-- `${a.title} ${a.description}`, the text of one article used throughout
`clusterArticles` (cluster.ts lines 270, 281, 282). -/
def textOf (a : RawArticle) : String := a.title ++ " " ++ a.description

/-- The keys of a JS `Map` built by repeated insertion over `doc`: the
distinct terms of `doc` in order of first occurrence. -/
def keyOrder (doc : List String) : List String :=
  doc.foldl (fun acc t => if t ∈ acc then acc else acc ++ [t]) []

/-- The document frequency of term `t`: the number of documents containing
`t` (cluster.ts lines 184-189). -/
def docFreq (documents : List (List String)) (t : String) : ℕ :=
  documents.countP (fun d => decide (t ∈ d))

/-- `buildTfIdf` (cluster.ts lines 180-206): one vector per document, in
order; each vector maps every distinct term of the document (in first-
occurrence order, the JS `Map` iteration order) to
`tf * Math.log(numDocs / df)`, where `df` is replaced by 1 when it is 0
(the `docFreq.get(term) || 1` fallback of the source; it never fires, since
a term of a document has positive document frequency). -/
noncomputable def buildTfIdf (documents : List (List String)) :
    List (List (String × ℝ)) :=
  let numDocs := documents.length
  documents.map (fun doc =>
    (keyOrder doc).map (fun t =>
      let tf := doc.count t
      let d := docFreq documents t
      let df := if d = 0 then 1 else d
      (t, (tf : ℝ) * Real.log ((numDocs : ℝ) / (df : ℝ)))))

/-- The accumulated dot product of the `cosineSimilarity` loop (cluster.ts
lines 216-221): for each entry of `vec1` whose term `vec2` also has, add the
product of the two weights. -/
def dotProduct (vec1 vec2 : List (String × ℝ)) : ℝ :=
  (vec1.map (fun tw =>
    match vec2.lookup tw.1 with
    | some w2 => tw.2 * w2
    | none => 0)).sum

/-- The accumulated squared norm of one vector in `cosineSimilarity`. -/
def sqNorm (vec : List (String × ℝ)) : ℝ :=
  (vec.map (fun tw => tw.2 * tw.2)).sum

/-- `cosineSimilarity` (cluster.ts lines 211-229): 0 when either squared
norm is 0, else the dot product over the square roots of the norms. -/
noncomputable def cosineSimilarity (vec1 vec2 : List (String × ℝ)) : ℝ :=
  if sqNorm vec1 = 0 ∨ sqNorm vec2 = 0 then 0
  else dotProduct vec1 vec2 / (Real.sqrt (sqNorm vec1) * Real.sqrt (sqNorm vec2))

/-- `entitySimilarity` (cluster.ts lines 234-241): the Jaccard index of two
entity sets, 0 when either set is empty.  The sets are duplicate-free lists;
`[...e1].filter(x => e2.has(x))` is the intersection, and the union is `e1`
followed by the elements of `e2` not in `e1`. -/
noncomputable def entitySimilarity (entities1 entities2 : List String) : ℝ :=
  if entities1.length = 0 ∨ entities2.length = 0 then 0
  else ((entities1.filter (fun x => decide (x ∈ entities2))).length : ℝ) /
    ((entities1 ++ entities2.filter (fun x => decide (x ∉ entities1))).length : ℝ)

/-- `combinedSimilarity` (cluster.ts lines 246-262). -/
noncomputable def combinedSimilarity (tfidf1 tfidf2 : List (String × ℝ))
    (entities1 entities2 : List String) : ℝ :=
  let textSim := cosineSimilarity tfidf1 tfidf2
  let entSim := entitySimilarity entities1 entities2
  if (0.5 : ℝ) ≤ entSim then max textSim (entSim * 0.8)
  else textSim * 0.6 + entSim * 0.4

/-- The greedy grouping pass of `clusterArticles` (cluster.ts lines
290-305), over the list of still-unassigned entries in corpus order: the
first unassigned entry seeds a group, absorbing every later unassigned
entry `y` with `p seed y`; the remaining entries are processed the same
way.  This is the same traversal as the source's index loop with its
`assigned` set: the outer loop skips assigned indices and the inner loop
only ever absorbs indices that are still unassigned when the seed scans. -/
def greedy (p : α → α → Bool) : List α → List (List α)
  | [] => []
  | x :: rest =>
    (x :: rest.filter (fun y => p x y)) :: greedy p (rest.filter (fun y => !p x y))
termination_by l => l.length
decreasing_by
  simp only [List.length_cons]
  exact Nat.lt_succ_of_le (List.length_filter_le _ rest)

/-- The list of entries still unassigned when the `k`-th seed of `greedy p`
opens its group (all entries for `k = 0`). -/
def remaining (p : α → α → Bool) : ℕ → List α → List α
  | 0, l => l
  | _ + 1, [] => []
  | k + 1, x :: rest => remaining p k (rest.filter (fun y => !p x y))

/-- `Math.round` in JS: round half towards positive infinity. -/
noncomputable def jsRound (x : ℝ) : ℤ := ⌊x + 1 / 2⌋

/-- The largest `publishedAt` of a cluster's articles —
`Math.max(...map(getTime))` (cluster.ts line 313); only applied to nonempty
lists (every cluster has its seed article). -/
def latestPublished (arts : List RawArticle) : ℤ :=
  match arts.map (fun a => a.publishedAt) with
  | [] => 0
  | t :: ts => ts.foldl max t

/-- The importance computation of `clusterArticles` (cluster.ts lines
310-320): base `1.5 × articles + 3 × distinct sources`, +2 when the most
recent article is under 6 hours old, else +1 under 12 hours, rounded and
clamped to [1, 10].  `now` is `Date.now()` in epoch milliseconds. -/
noncomputable def computeImportance (now : ℤ) (arts : List RawArticle) : ℤ :=
  let numArticles := arts.length
  let numSources := (arts.map (fun a => a.source)).dedup.length
  let recency := latestPublished arts
  let hoursAgo : ℝ := ((now - recency : ℤ) : ℝ) / (1000 * 60 * 60)
  let base : ℝ := (numArticles : ℝ) * 1.5 + (numSources : ℝ) * 3
  let boosted := if hoursAgo < 6 then base + 2
    else if hoursAgo < 12 then base + 1 else base
  min 10 (max 1 (jsRound boosted))

/-- The filtered corpus: articles surviving the sports/entertainment filter
(cluster.ts lines 269-276). -/
def filteredArticles (articles : List RawArticle) : List RawArticle :=
  articles.filter (fun a => !isSportOrEntertainment (textOf a))

/-- The token sequences of the filtered corpus (cluster.ts line 281). -/
def corpusDocuments (articles : List RawArticle) : List (List String) :=
  (filteredArticles articles).map (fun a => tokenize (textOf a))

/-- The entity sets of the filtered corpus (cluster.ts line 282). -/
def corpusEntities (articles : List RawArticle) : List (List String) :=
  (filteredArticles articles).map (fun a => extractEntities (textOf a))

/-- The TF-IDF vectors of the filtered corpus (cluster.ts line 283). -/
noncomputable def corpusVectors (articles : List RawArticle) :
    List (List (String × ℝ)) :=
  buildTfIdf (corpusDocuments articles)

/-- The pairwise combined similarity of filtered documents `i` and `j`
(cluster.ts line 299). -/
noncomputable def corpusSim (articles : List RawArticle) (i j : ℕ) : ℝ :=
  combinedSimilarity ((corpusVectors articles).getD i [])
    ((corpusVectors articles).getD j [])
    ((corpusEntities articles).getD i []) ((corpusEntities articles).getD j [])

/-- The absorption test of the greedy pass, on indexed filtered articles:
`similarity >= SIMILARITY_THRESHOLD` with threshold 0.20 (cluster.ts lines
286, 301). -/
noncomputable def simP (articles : List RawArticle) :
    ℕ × RawArticle → ℕ × RawArticle → Bool :=
  fun x y => decide ((0.20 : ℝ) ≤ corpusSim articles x.1 y.1)

/-- Fallback article value for list `getD`/`headD` access (never reached on
the nonempty groups the builder produces). -/
def defaultArticle : RawArticle :=
  { id := "", title := "", description := "", url := "", imageUrl := none,
    source := "", category := Category.geopolitique, publishedAt := 0,
    fetchedAt := 0 }

/-- `clusterArticles` (cluster.ts lines 267-332): filter the corpus, build
vectors and entity sets, group greedily by combined similarity against each
seed with threshold 0.20, and wrap each group as an `ArticleCluster` whose
id is its 1-based sequence number, whose topic is the seed's title truncated
to 80 characters, whose category is the seed's, and whose importance comes
from `computeImportance`. -/
noncomputable def clusterArticles (now : ℤ) (articles : List RawArticle) :
    List ArticleCluster :=
  let groups := greedy (simP articles) (filteredArticles articles).enum
  groups.enum.map (fun kg =>
    let arts := kg.2.map Prod.snd
    let mainArticle := arts.headD defaultArticle
    { id := "cluster-" ++ toString (kg.1 + 1)
      topic := mainArticle.title.take 80
      category := mainArticle.category
      importance := computeImportance now arts
      articles := arts })

/-- The concatenated text of a cluster's articles, joined by single spaces
(cluster.ts lines 338-339). -/
def joinedText (c : ArticleCluster) : String :=
  String.intercalate (String.singleton ' ') (c.articles.map textOf)

/-- The number of source URLs shared by two clusters (cluster.ts lines
349-351).  The source puts the URLs in `Set`s first; only emptiness of the
intersection is consumed (`sharedUrls > 0`), for which deduplication is
irrelevant. -/
def sharedUrlCount (cluster1 cluster2 : ArticleCluster) : ℕ :=
  ((cluster1.articles.map (fun a => a.url)).filter
    (fun u => decide (u ∈ cluster2.articles.map (fun a => a.url)))).length

/-- `areSameTopic` (cluster.ts lines 337-362): duplicate when the entity
Jaccard similarity of the concatenated texts is ≥ 0.5, or the clusters share
an article URL, or the cosine similarity of the two concatenated texts
re-vectorized over just these two documents is ≥ 0.25. -/
noncomputable def areSameTopic (cluster1 cluster2 : ArticleCluster) : Bool :=
  let entities1 := extractEntities (joinedText cluster1)
  let entities2 := extractEntities (joinedText cluster2)
  if (0.5 : ℝ) ≤ entitySimilarity entities1 entities2 then true
  else if 0 < sharedUrlCount cluster1 cluster2 then true
  else
    let vectors := buildTfIdf [tokenize (joinedText cluster1), tokenize (joinedText cluster2)]
    if (0.25 : ℝ) ≤ cosineSimilarity (vectors.getD 0 []) (vectors.getD 1 []) then true
    else false

/-- The number of distinct sources of a cluster
(`new Set(c.articles.map(a => a.source)).size`, cluster.ts lines 372, 376). -/
def numSources (c : ArticleCluster) : ℕ :=
  (c.articles.map (fun a => a.source)).dedup.length

/-- Stable insertion of a cluster into a list sorted by descending
importance: the new element goes after every element of strictly greater
importance and before equal ones (it precedes them in the input). -/
def insertByImportance (c : ArticleCluster) :
    List ArticleCluster → List ArticleCluster
  | [] => [c]
  | d :: rest =>
    if c.importance < d.importance then d :: insertByImportance c rest
    else c :: d :: rest

/-- `.sort((a, b) => b.importance - a.importance)`: stable sort by
descending importance (JS `Array.prototype.sort` is stable), modelled as a
stable insertion sort. -/
def sortByImportance : List ArticleCluster → List ArticleCluster
  | [] => []
  | c :: rest => insertByImportance c (sortByImportance rest)

/-- `isDuplicate` of `selectBestClusters` (cluster.ts lines 380-382): the
candidate duplicates some already-selected cluster. -/
noncomputable def isDuplicate (selected : List ArticleCluster)
    (candidate : ArticleCluster) : Bool :=
  selected.any (fun s => areSameTopic s candidate)

/-- The per-category quota loop body of `selectBestClusters` (cluster.ts
lines 391-403): walk the category's candidates, stopping once `target` many
were added, appending every candidate that does not duplicate an
already-selected cluster. -/
noncomputable def categoryTake (target : ℕ) (selected : List ArticleCluster)
    (added : ℕ) : List ArticleCluster → List ArticleCluster
  | [] => selected
  | c :: rest =>
    if target ≤ added then selected
    else if !isDuplicate selected c then
      categoryTake target (selected ++ [c]) (added + 1) rest
    else categoryTake target selected added rest

/-- The backfill loop of `selectBestClusters` (cluster.ts lines 408-414):
walk all candidates in priority order, stopping at `totalTarget` selected,
appending every candidate not already selected and not a duplicate.
`selected.includes` is modelled by structural list membership. -/
noncomputable def backfill (totalTarget : ℕ) (selected : List ArticleCluster) :
    List ArticleCluster → List ArticleCluster
  | [] => selected
  | c :: rest =>
    if totalTarget ≤ selected.length then selected
    else if !(decide (c ∈ selected)) && !isDuplicate selected c then
      backfill totalTarget (selected ++ [c]) rest
    else backfill totalTarget selected rest

/-- `selectBestClusters` (cluster.ts lines 367-418): sort multi-source and
single-source clusters by descending importance; fill each category's quota
in `TARGET_CLUSTERS` order from the concatenated priority list restricted to
the category, skipping duplicates; backfill from the full priority list when
under the total target; return the selection sorted by descending
importance. -/
noncomputable def selectBestClusters (clusters : List ArticleCluster) :
    List ArticleCluster :=
  let multiSource := sortByImportance (clusters.filter (fun c => decide (1 < numSources c)))
  let singleSource := sortByImportance (clusters.filter (fun c => decide (numSources c = 1)))
  let allSorted := multiSource ++ singleSource
  let byCategory := fun cat => allSorted.filter (fun c => decide (c.category = cat))
  let afterQuota := TARGET_CLUSTERS.foldl
    (fun sel ct => categoryTake ct.2 sel 0 (byCategory ct.1)) []
  let totalTarget := (TARGET_CLUSTERS.map Prod.snd).sum
  let final := if afterQuota.length < totalTarget then
    backfill totalTarget afterQuota allSorted else afterQuota
  sortByImportance final

/-! Properties of the greedy grouping pass -/

theorem greedy_flatten_perm (p : α → α → Bool) (l : List α) :
    ((greedy p l).flatten).Perm l := by
  induction l using greedy.induct p with
  | case1 => simp [greedy]
  | case2 x rest ih =>
    rw [greedy]
    simp only [List.flatten_cons, List.cons_append]
    exact List.Perm.cons x
      ((List.Perm.append_left _ ih).trans (List.filter_append_perm _ rest))

theorem greedy_drop (p : α → α → Bool) (k : ℕ) (l : List α) :
    (greedy p l).drop k = greedy p (remaining p k l) := by
  induction k generalizing l with
  | zero => simp [remaining]
  | succ k ih =>
    match l with
    | [] => simp [greedy, remaining]
    | x :: rest =>
      rw [greedy, remaining]
      simpa using ih (rest.filter (fun y => !p x y))

theorem greedy_getElem? (p : α → α → Bool) (k : ℕ) (l : List α) (x : α)
    (rest : List α) (h : remaining p k l = x :: rest) :
    (greedy p l)[k]? = some (x :: rest.filter (fun y => p x y)) := by
  have h0 : ((greedy p l).drop k)[0]? = (greedy p l)[k]? := by
    simp [List.getElem?_drop]
  rw [← h0, greedy_drop p k l, h, greedy]
  simp

theorem greedy_pair (p : α → α → Bool) (l : List α) (x y : α)
    (hsub : [x, y].Sublist l) (hcol : ∀ z ∈ l, p z x = p z y)
    (hxy : p x y = true) : ∃ g ∈ greedy p l, x ∈ g ∧ y ∈ g := by
  induction l using greedy.induct p with
  | case1 => cases hsub
  | case2 z rest ih =>
    rw [greedy]
    cases hsub with
    | cons₂ a h =>
      refine ⟨x :: rest.filter (fun w => p x w), List.mem_cons_self _ _, List.mem_cons_self _ _, ?_⟩
      exact List.mem_cons_of_mem x
        (List.mem_filter.mpr ⟨List.singleton_sublist.mp h, hxy⟩)
    | cons a h =>
      have hx : x ∈ rest := h.subset (by simp)
      have hy : y ∈ rest := h.subset (by simp)
      by_cases hzx : p z x = true
      · have hzy : p z y = true := (hcol z (List.mem_cons_self _ _)) ▸ hzx
        exact ⟨z :: rest.filter (fun w => p z w), List.mem_cons_self _ _,
          List.mem_cons_of_mem z (List.mem_filter.mpr ⟨hx, hzx⟩),
          List.mem_cons_of_mem z (List.mem_filter.mpr ⟨hy, hzy⟩)⟩
      · have hzx' : p z x = false := Bool.eq_false_iff.mpr hzx
        have hzy' : p z y = false := (hcol z (List.mem_cons_self _ _)) ▸ hzx'
        have hfil : [x, y].Sublist (rest.filter (fun w => !p z w)) := by
          have := h.filter (fun w => !p z w)
          simpa [List.filter, hzx', hzy'] using this
        obtain ⟨g, hg, hxg, hyg⟩ := ih hfil
          (fun w hw => hcol w (List.mem_cons_of_mem z (List.mem_of_mem_filter hw)))
        exact ⟨g, List.mem_cons_of_mem _ hg, hxg, hyg⟩

theorem pair_sublist_of_getElem? {l : List α} {i j : ℕ} {u v : α}
    (hij : i < j) (hi : l[i]? = some u) (hj : l[j]? = some v) :
    [u, v].Sublist l := by
  obtain ⟨hil, hiu⟩ := List.getElem?_eq_some.mp hi
  have hdrop : l.drop i = u :: l.drop (i + 1) := by
    rw [List.drop_eq_getElem_cons hil, hiu]
  have hv : v ∈ l.drop (i + 1) := by
    apply List.getElem?_mem (n := j - (i + 1))
    rw [List.getElem?_drop, show i + 1 + (j - (i + 1)) = j by omega]
    exact hj
  have h2 : [u, v].Sublist (u :: l.drop (i + 1)) :=
    (List.singleton_sublist.mpr hv).cons₂ u
  rw [← hdrop] at h2
  exact h2.trans (List.drop_sublist i l)

theorem map_enum_snd (f : α → β) (l : List α) :
    List.map (fun kg : ℕ × α => f kg.2) l.enum = List.map f l := by
  calc List.map (fun kg : ℕ × α => f kg.2) l.enum
      = List.map f (List.map Prod.snd l.enum) := by rw [List.map_map]; rfl
    _ = List.map f l := by rw [List.enum_map_snd]

/-- C1.  Partition invariant: for every input corpus, the articles of the
clusters returned by `clusterArticles`, concatenated, are a permutation of
the articles surviving the sports/entertainment content filter — every
filtered article appears in exactly one cluster (counted with multiplicity),
none is duplicated across clusters and none is dropped. -/
theorem C1_partition_invariant (now : ℤ) (articles : List RawArticle) :
    ((clusterArticles now articles).flatMap (fun c => c.articles)).Perm
      (filteredArticles articles) := by
  unfold clusterArticles
  rw [List.flatMap_def, List.map_map]
  have h1 : ((fun c : ArticleCluster => c.articles) ∘
      (fun kg : ℕ × List (ℕ × RawArticle) =>
        let arts := kg.2.map Prod.snd
        let mainArticle := arts.headD defaultArticle
        { id := "cluster-" ++ toString (kg.1 + 1)
          topic := mainArticle.title.take 80
          category := mainArticle.category
          importance := computeImportance now arts
          articles := arts : ArticleCluster })) =
      (fun kg : ℕ × List (ℕ × RawArticle) => kg.2.map Prod.snd) := rfl
  rw [h1, map_enum_snd (fun g : List (ℕ × RawArticle) => g.map Prod.snd),
    ← List.map_flatten]
  have h2 := (greedy_flatten_perm (simP articles)
    (filteredArticles articles).enum).map Prod.snd
  rwa [List.enum_map_snd] at h2

/-! Characterization of the clusters built by `clusterArticles` -/

theorem clusterArticles_getElem? (now : ℤ) (articles : List RawArticle)
    (k : ℕ) (x : ℕ × RawArticle) (rest : List (ℕ × RawArticle))
    (h : remaining (simP articles) k (filteredArticles articles).enum = x :: rest) :
    ∃ c, (clusterArticles now articles)[k]? = some c ∧
      c.articles = x.2 :: (rest.filter (fun y => simP articles x y)).map Prod.snd := by
  unfold clusterArticles
  have hg := greedy_getElem? (simP articles) k (filteredArticles articles).enum x rest h
  rw [List.getElem?_map, List.getElem?_enum, hg]
  exact ⟨_, rfl, by simp⟩

theorem mem_clusterArticles_of_mem_greedy (now : ℤ) (articles : List RawArticle)
    (g : List (ℕ × RawArticle))
    (hg : g ∈ greedy (simP articles) (filteredArticles articles).enum) :
    ∃ c ∈ clusterArticles now articles, c.articles = g.map Prod.snd := by
  obtain ⟨k, hk⟩ := List.mem_iff_getElem?.mp hg
  have hc : (clusterArticles now articles)[k]? =
      some { id := "cluster-" ++ toString (k + 1)
             topic := ((g.map Prod.snd).headD defaultArticle).title.take 80
             category := ((g.map Prod.snd).headD defaultArticle).category
             importance := computeImportance now (g.map Prod.snd)
             articles := g.map Prod.snd } := by
    unfold clusterArticles
    rw [List.getElem?_map, List.getElem?_enum, hk]
    rfl
  exact ⟨_, List.getElem?_mem hc, rfl⟩

/-! Entity and combined-similarity facts -/

theorem entitySimilarity_self (e : List String) (he : e ≠ []) :
    entitySimilarity e e = 1 := by
  unfold entitySimilarity
  rw [if_neg (by simp [List.length_eq_zero, he])]
  have h1 : e.filter (fun x => decide (x ∈ e)) = e :=
    List.filter_eq_self.mpr (fun a ha => by simpa using ha)
  have h2 : e.filter (fun x => decide (x ∉ e)) = [] :=
    List.filter_eq_nil_iff.mpr (fun a ha => by simpa using ha)
  rw [h1, h2, List.append_nil]
  have hlen : e.length ≠ 0 := by
    simpa [List.length_eq_zero] using he
  exact div_self (Nat.cast_ne_zero.mpr hlen)

theorem combined_ge_of_entitySimilarity_one (v1 v2 : List (String × ℝ))
    (e1 e2 : List String) (h : entitySimilarity e1 e2 = 1) :
    (0.8 : ℝ) ≤ combinedSimilarity v1 v2 e1 e2 := by
  unfold combinedSimilarity
  rw [h, if_pos (by norm_num)]
  calc (0.8 : ℝ) = 1 * 0.8 := by norm_num
    _ ≤ max (cosineSimilarity v1 v2) (1 * 0.8) := le_max_right _ _

/-- The column congruence used for identical documents: if filtered
positions `i` and `j` carry articles with the same text, every similarity
against them agrees, and their mutual similarity is at least 0.8 as soon as
the shared text has at least one entity. -/
theorem corpusSim_congr_of_text_eq (articles : List RawArticle) (i j : ℕ)
    (a b : RawArticle)
    (hi : (filteredArticles articles)[i]? = some a)
    (hj : (filteredArticles articles)[j]? = some b)
    (htext : textOf a = textOf b) :
    (∀ w, corpusSim articles w i = corpusSim articles w j) ∧
    ((corpusEntities articles).getD i [] = extractEntities (textOf a)) ∧
    ((corpusEntities articles).getD j [] = extractEntities (textOf a)) := by
  have hdocs : ∀ t, (corpusVectors articles).getD i t = (corpusVectors articles).getD j t := by
    intro t
    unfold corpusVectors buildTfIdf corpusDocuments
    simp only [List.getD_eq_getElem?_getD, List.getElem?_map, hi, hj, htext,
      Option.map_some']
  have hents_i : (corpusEntities articles).getD i [] = extractEntities (textOf a) := by
    unfold corpusEntities
    simp only [List.getD_eq_getElem?_getD, List.getElem?_map, hi, Option.map_some',
      Option.getD_some]
  have hents_j : (corpusEntities articles).getD j [] = extractEntities (textOf a) := by
    unfold corpusEntities
    simp only [List.getD_eq_getElem?_getD, List.getElem?_map, hj, Option.map_some',
      Option.getD_some, htext]
  refine ⟨fun w => ?_, hents_i, hents_j⟩
  unfold corpusSim
  rw [hdocs, hents_i, hents_j]

/-- C6 (amended).  Cluster builder absorption threshold: for every seed —
the head of the list of entries still unassigned after `k` earlier clusters
were built — the builder's `k`-th cluster consists of the seed followed by
exactly those later, still-unassigned documents whose combined similarity to
the seed is AT LEAST the fixed threshold 0.20 (the source compares with
`>=`, so a document whose similarity is exactly 0.20 IS absorbed; the
original claim's strict `>` reading is refuted by
`C6_absorption_counterexample`). -/
theorem C6_absorption_threshold (now : ℤ) (articles : List RawArticle)
    (k : ℕ) (x : ℕ × RawArticle) (rest : List (ℕ × RawArticle))
    (h : remaining (simP articles) k (filteredArticles articles).enum = x :: rest) :
    ∃ c, (clusterArticles now articles)[k]? = some c ∧
      c.articles = x.2 :: (rest.filter
        (fun y => decide ((0.20 : ℝ) ≤ corpusSim articles x.1 y.1))).map Prod.snd :=
  clusterArticles_getElem? now articles k x rest h

/-- C5.  Entity override: whenever two filtered documents share no token but
both have entity set exactly `{"ukraine"}`, their combined similarity is at
least 0.8, above the 0.20 threshold, and when the first is a seed (head of
the still-unassigned entries) scanning the second, both land in the same
cluster. -/
theorem C5_entity_override (now : ℤ) (articles : List RawArticle)
    (k i j : ℕ) (a b : RawArticle) (rest : List (ℕ × RawArticle))
    (hrem : remaining (simP articles) k (filteredArticles articles).enum = (i, a) :: rest)
    (hmem : (j, b) ∈ rest)
    (hdisj : ∀ t ∈ (corpusDocuments articles).getD i [],
      t ∉ (corpusDocuments articles).getD j [])
    (hei : (corpusEntities articles).getD i [] = ["ukraine"])
    (hej : (corpusEntities articles).getD j [] = ["ukraine"]) :
    (0.8 : ℝ) ≤ corpusSim articles i j ∧
    (0.20 : ℝ) ≤ corpusSim articles i j ∧
    ∃ c ∈ clusterArticles now articles, a ∈ c.articles ∧ b ∈ c.articles := by
  have hsim : (0.8 : ℝ) ≤ corpusSim articles i j := by
    unfold corpusSim
    rw [hei, hej]
    exact combined_ge_of_entitySimilarity_one _ _ _ _
      (entitySimilarity_self _ (by simp))
  have hsim2 : (0.20 : ℝ) ≤ corpusSim articles i j := le_trans (by norm_num) hsim
  obtain ⟨c, hc, harts⟩ := clusterArticles_getElem? now articles k (i, a) rest hrem
  refine ⟨hsim, hsim2, c, List.getElem?_mem hc, ?_, ?_⟩
  · rw [harts]
    exact List.mem_cons_self _ _
  · rw [harts]
    apply List.mem_cons_of_mem
    have hjf : (j, b) ∈ rest.filter (fun y => simP articles (i, a) y) :=
      List.mem_filter.mpr ⟨hmem, by simpa [simP] using hsim2⟩
    exact List.mem_map_of_mem Prod.snd hjf

/-- C7 (amended).  Exact duplicate collapsing: whenever the corpus contains
two articles with identical title, description and url that both survive
the content filter AND whose (identical) text yields at least one extracted
entity, the clustering engine places both in the same cluster instead of
producing two independent singletons.  Without the entity proviso the
original claim fails: two identical articles with no surviving tokens and no
entities have combined similarity 0 and become two singleton clusters
(`C7_duplicate_counterexample`). -/
theorem C7_exact_duplicate (now : ℤ) (articles : List RawArticle)
    (i j : ℕ) (a b : RawArticle) (hij : i < j)
    (hi : (filteredArticles articles)[i]? = some a)
    (hj : (filteredArticles articles)[j]? = some b)
    (ht : a.title = b.title) (hd : a.description = b.description)
    (hu : a.url = b.url) (hent : extractEntities (textOf a) ≠ []) :
    ∃ c ∈ clusterArticles now articles, a ∈ c.articles ∧ b ∈ c.articles := by
  have htext : textOf a = textOf b := by
    unfold textOf
    rw [ht, hd]
  obtain ⟨hcols, hent_i, hent_j⟩ := corpusSim_congr_of_text_eq articles i j a b hi hj htext
  have hsub : [(i, a), (j, b)].Sublist (filteredArticles articles).enum := by
    apply pair_sublist_of_getElem? hij
    · rw [List.getElem?_enum, hi]
      rfl
    · rw [List.getElem?_enum, hj]
      rfl
  have hcol : ∀ z ∈ (filteredArticles articles).enum,
      simP articles z (i, a) = simP articles z (j, b) := by
    intro z _
    unfold simP
    rw [hcols z.1]
  have hij_sim : (0.8 : ℝ) ≤ corpusSim articles i j := by
    unfold corpusSim
    rw [hent_i, hent_j]
    exact combined_ge_of_entitySimilarity_one _ _ _ _ (entitySimilarity_self _ hent)
  have hpxy : simP articles (i, a) (j, b) = true := by
    simp only [simP, decide_eq_true_eq]
    exact le_trans (by norm_num) hij_sim
  obtain ⟨g, hg, hxg, hyg⟩ :=
    greedy_pair (simP articles) (filteredArticles articles).enum (i, a) (j, b)
      hsub hcol hpxy
  obtain ⟨c, hc, harts⟩ := mem_clusterArticles_of_mem_greedy now articles g hg
  refine ⟨c, hc, ?_, ?_⟩
  · rw [harts]
    exact List.mem_map_of_mem Prod.snd hxg
  · rw [harts]
    exact List.mem_map_of_mem Prod.snd hyg

/-! Importance bounds and degenerate corpora -/

theorem computeImportance_bounds (now : ℤ) (arts : List RawArticle) :
    1 ≤ computeImportance now arts ∧ computeImportance now arts ≤ 10 := by
  unfold computeImportance
  constructor
  · exact le_min (by norm_num) (le_max_left 1 _)
  · exact min_le_left _ _

/-- C9.  Importance clamp: every cluster built by `clusterArticles` carries
an importance — `Math.round` of `1.5 × articles + 3 × distinct sources`
plus the recency bonus, clamped — that is an integer between 1 and 10
inclusive (integrality is expressed by the field's type `ℤ`). -/
theorem C9_importance_clamp (now : ℤ) (articles : List RawArticle)
    (c : ArticleCluster) (hc : c ∈ clusterArticles now articles) :
    1 ≤ c.importance ∧ c.importance ≤ 10 := by
  unfold clusterArticles at hc
  obtain ⟨kg, _, rfl⟩ := List.mem_map.mp hc
  exact computeImportance_bounds now _

/-- C10.  Empty-corpus tolerance: when the content filter excludes every
article (in particular for the empty corpus), `clusterArticles` returns no
clusters, and `selectBestClusters` applied to an empty cluster list returns
an empty selection; neither fails. -/
theorem C10_empty_corpus (now : ℤ) (articles : List RawArticle)
    (h : ∀ a ∈ articles, isSportOrEntertainment (textOf a) = true) :
    clusterArticles now articles = [] ∧ selectBestClusters [] = [] := by
  have hfil : filteredArticles articles = [] := by
    unfold filteredArticles
    exact List.filter_eq_nil_iff.mpr (fun a ha => by simp [h a ha])
  constructor
  · unfold clusterArticles
    rw [hfil]
    simp [greedy]
  · rfl

/-! TF-IDF vector facts -/

theorem mem_keyOrder {doc : List String} {t : String} :
    t ∈ keyOrder doc ↔ t ∈ doc := by
  have H : ∀ (d : List String) (acc : List String),
      (t ∈ d.foldl (fun acc u => if u ∈ acc then acc else acc ++ [u]) acc) ↔
        (t ∈ acc ∨ t ∈ d) := by
    intro d
    induction d with
    | nil => simp
    | cons u rest ih =>
      intro acc
      rw [List.foldl_cons, ih]
      by_cases hu : u ∈ acc
      · simp only [if_pos hu, List.mem_cons]
        constructor
        · rintro (h1 | h2)
          · exact Or.inl h1
          · exact Or.inr (Or.inr h2)
        · rintro (h1 | rfl | h2)
          · exact Or.inl h1
          · exact Or.inl hu
          · exact Or.inr h2
      · simp only [if_neg hu, List.mem_append, List.mem_singleton, List.mem_cons]
        tauto
  rw [keyOrder, H]
  simp

theorem mem_of_lookup_eq_some {l : List (String × ℝ)} {a : String} {b : ℝ}
    (h : l.lookup a = some b) : (a, b) ∈ l := by
  induction l with
  | nil => simp [List.lookup] at h
  | cons kv rest ih =>
    rw [show kv = (kv.1, kv.2) from rfl, List.lookup_cons] at h
    by_cases hk : a == kv.1
    · rw [hk] at h
      simp only [Option.some.injEq] at h
      rw [show kv = (kv.1, kv.2) from rfl]
      exact (eq_of_beq hk) ▸ h ▸ List.mem_cons_self _ _
    · rw [Bool.eq_false_iff.mpr hk] at h
      exact List.mem_cons_of_mem _ (ih h)

theorem buildTfIdf_getD (documents : List (List String)) (i : ℕ)
    (doc : List String) (hdoc : documents[i]? = some doc) :
    (buildTfIdf documents).getD i [] = (keyOrder doc).map (fun t =>
      (t, (doc.count t : ℝ) * Real.log ((documents.length : ℝ) /
        ((if docFreq documents t = 0 then 1 else docFreq documents t) : ℕ)))) := by
  unfold buildTfIdf
  simp only [List.getD_eq_getElem?_getD, List.getElem?_map, hdoc,
    Option.map_some', Option.getD_some]

/-- C8.  TF-IDF bounds: every weight produced by `buildTfIdf` equals the
term's raw frequency in its document times `ln(N / df)` (with `N` the
number of documents and `df` the number of documents containing the term),
is nonnegative, and is exactly 0 whenever the term occurs in every
document. -/
theorem C8_tfidf_bounds (documents : List (List String)) (i : ℕ)
    (doc : List String) (hdoc : documents[i]? = some doc)
    (tw : String × ℝ) (htw : tw ∈ (buildTfIdf documents).getD i []) :
    tw.2 = (doc.count tw.1 : ℝ) *
      Real.log ((documents.length : ℝ) / (docFreq documents tw.1 : ℝ)) ∧
    0 ≤ tw.2 ∧
    ((∀ d ∈ documents, tw.1 ∈ d) → tw.2 = 0) := by
  rw [buildTfIdf_getD documents i doc hdoc] at htw
  obtain ⟨t, htmem, rfl⟩ := List.mem_map.mp htw
  have htdoc : t ∈ doc := mem_keyOrder.mp htmem
  have hdfpos : 0 < docFreq documents t := by
    unfold docFreq
    exact List.countP_pos.mpr ⟨doc, List.getElem?_mem hdoc, by simpa using htdoc⟩
  have hdfne : docFreq documents t ≠ 0 := Nat.pos_iff_ne_zero.mp hdfpos
  have hdflen : docFreq documents t ≤ documents.length := List.countP_le_length _
  have hform : ((if docFreq documents t = 0 then 1 else docFreq documents t) : ℕ) =
      docFreq documents t := by
    rw [if_neg hdfne]
  have hlog : 0 ≤ Real.log ((documents.length : ℝ) / (docFreq documents t : ℝ)) := by
    apply Real.log_nonneg
    rw [le_div_iff (by exact_mod_cast hdfpos)]
    simpa using Nat.cast_le.mpr hdflen
  refine ⟨by rw [hform], ?_, ?_⟩
  · simp only [hform]
    exact mul_nonneg (by positivity) hlog
  · intro hall
    have hdfN : docFreq documents t = documents.length := by
      unfold docFreq
      exact List.countP_eq_length.mpr (fun d hd => by simpa using hall d hd)
    have hN : (documents.length : ℝ) ≠ 0 := by
      have h0 : 0 < documents.length := lt_of_lt_of_le hdfpos hdflen
      exact_mod_cast Nat.pos_iff_ne_zero.mp h0
    conv_lhs => rw [hform]
    rw [hdfN, div_self hN, Real.log_one, mul_zero]

/-- C3.  Combined similarity formula: `combinedSimilarity` is
`max(textSim, 0.8 × entSim)` when `entSim ≥ 0.5` and
`0.6 × textSim + 0.4 × entSim` otherwise, where `textSim` is the cosine of
the two TF-IDF vectors with the zero-norm guard (0 whenever either norm is
0, hence never a division by zero) and `entSim` is the Jaccard index of the
entity sets with the empty-set guard. -/
theorem C3_combined_similarity_formula (v1 v2 : List (String × ℝ))
    (e1 e2 : List String) :
    combinedSimilarity v1 v2 e1 e2 =
      (if (0.5 : ℝ) ≤ entitySimilarity e1 e2 then
        max (cosineSimilarity v1 v2) (0.8 * entitySimilarity e1 e2)
      else 0.6 * cosineSimilarity v1 v2 + 0.4 * entitySimilarity e1 e2) ∧
    cosineSimilarity v1 v2 =
      (if sqNorm v1 = 0 ∨ sqNorm v2 = 0 then 0
       else dotProduct v1 v2 / (Real.sqrt (sqNorm v1) * Real.sqrt (sqNorm v2))) ∧
    entitySimilarity e1 e2 =
      (if e1.length = 0 ∨ e2.length = 0 then 0
       else ((e1.filter (fun x => decide (x ∈ e2))).length : ℝ) /
         ((e1 ++ e2.filter (fun x => decide (x ∉ e1))).length : ℝ)) := by
  refine ⟨?_, rfl, rfl⟩
  simp only [combinedSimilarity]
  by_cases h : (0.5 : ℝ) ≤ entitySimilarity e1 e2
  · rw [if_pos h, if_pos h, mul_comm]
  · rw [if_neg h, if_neg h]
    ring

/-! The dead text branch of the deduplicator -/

theorem dotProduct_eq_zero (v1 v2 : List (String × ℝ))
    (h : ∀ tw ∈ v1, (v2.lookup tw.1).isSome = true → tw.2 = 0) :
    dotProduct v1 v2 = 0 := by
  unfold dotProduct
  apply List.sum_eq_zero
  intro x hx
  obtain ⟨tw, htw, rfl⟩ := List.mem_map.mp hx
  cases hlk : v2.lookup tw.1 with
  | none => simp [hlk]
  | some w2 =>
    have hz := h tw htw (by rw [hlk]; rfl)
    simp [hlk, hz]

theorem cosine_two_doc_zero (t1 t2 : List String) :
    cosineSimilarity ((buildTfIdf [t1, t2]).getD 0 [])
      ((buildTfIdf [t1, t2]).getD 1 []) = 0 := by
  have hdot : dotProduct ((buildTfIdf [t1, t2]).getD 0 [])
      ((buildTfIdf [t1, t2]).getD 1 []) = 0 := by
    apply dotProduct_eq_zero
    intro tw htw hsome
    rw [buildTfIdf_getD [t1, t2] 0 t1 rfl] at htw
    rw [buildTfIdf_getD [t1, t2] 1 t2 rfl] at hsome
    obtain ⟨t, htmem, rfl⟩ := List.mem_map.mp htw
    obtain ⟨w2, hlk⟩ := Option.isSome_iff_exists.mp hsome
    have hpair := mem_of_lookup_eq_some hlk
    obtain ⟨s, hsmem, hse⟩ := List.mem_map.mp hpair
    have hst : s = t := congrArg Prod.fst hse
    have ht2 : t ∈ t2 := mem_keyOrder.mp (hst ▸ hsmem)
    have ht1 : t ∈ t1 := mem_keyOrder.mp htmem
    have hdf : docFreq [t1, t2] t = 2 := by
      unfold docFreq
      simp [List.countP_cons, ht1, ht2]
    show (t1.count t : ℝ) * Real.log ((([t1, t2].length : ℕ) : ℝ) /
      ((if docFreq [t1, t2] t = 0 then 1 else docFreq [t1, t2] t) : ℕ)) = 0
    rw [hdf]
    norm_num
  unfold cosineSimilarity
  split
  · rfl
  · rw [hdot, zero_div]

/-- C4.  Dead deduplication branch: the text-similarity value computed
inside `areSameTopic` is always exactly 0 — the TF-IDF is rebuilt over only
the two concatenated cluster texts, so every shared term has idf
`ln(2/2) = 0` and the dot product vanishes — hence `areSameTopic` returns
true if and only if the entity-set Jaccard similarity is at least 0.5 or
the clusters share an article URL; the `cosine ≥ 0.25` branch never
declares a duplicate. -/
theorem C4_dead_dedup_branch (c1 c2 : ArticleCluster) :
    cosineSimilarity
      ((buildTfIdf [tokenize (joinedText c1), tokenize (joinedText c2)]).getD 0 [])
      ((buildTfIdf [tokenize (joinedText c1), tokenize (joinedText c2)]).getD 1 []) = 0 ∧
    (areSameTopic c1 c2 = true ↔
      (0.5 : ℝ) ≤ entitySimilarity (extractEntities (joinedText c1))
        (extractEntities (joinedText c2)) ∨
      0 < sharedUrlCount c1 c2) := by
  refine ⟨cosine_two_doc_zero _ _, ?_⟩
  simp only [areSameTopic]
  by_cases h1 : (0.5 : ℝ) ≤ entitySimilarity (extractEntities (joinedText c1))
      (extractEntities (joinedText c2))
  · rw [if_pos h1]
    simp [h1]
  · rw [if_neg h1]
    by_cases h2 : 0 < sharedUrlCount c1 c2
    · rw [if_pos h2]
      simp [h2]
    · rw [if_neg h2, cosine_two_doc_zero, if_neg (by norm_num)]
      simp [h1, h2]

/-! Concrete corpora used to instantiate the theorems -/

/-- A sports article (two excluded keywords: "football" and "match"). -/
def sportArticle : RawArticle :=
  { id := "s1", title := "Football match tonight", description := "big game",
    url := "http://x/s1", imageUrl := none, source := "src",
    category := Category.geopolitique, publishedAt := 0, fetchedAt := 0 }

/-- A plain single-token article with no entities. -/
def plainArticle : RawArticle :=
  { id := "p1", title := "zzz", description := "", url := "http://x/p1",
    imageUrl := none, source := "src", category := Category.geopolitique,
    publishedAt := 0, fetchedAt := 0 }

/-- An article matched to entity "ukraine" via the alias "kyiv". -/
def kyivArticle : RawArticle :=
  { id := "k1", title := "Kyiv shelled overnight", description := "",
    url := "http://x/k1", imageUrl := none, source := "alpha",
    category := Category.geopolitique, publishedAt := 0, fetchedAt := 0 }

/-- An article matched to entity "ukraine" via the alias "zelensky", with no
token shared with `kyivArticle`. -/
def zelenskyArticle : RawArticle :=
  { id := "k2", title := "Zelensky pleads assistance", description := "",
    url := "http://x/k2", imageUrl := none, source := "beta",
    category := Category.geopolitique, publishedAt := 0, fetchedAt := 0 }

/-- A degenerate article: no token survives tokenization (the title is too
short) and no entity is extracted. -/
def emptyTokenArticle : RawArticle :=
  { id := "e1", title := "a", description := "", url := "http://x/e1",
    imageUrl := none, source := "src", category := Category.geopolitique,
    publishedAt := 0, fetchedAt := 0 }

/-- C10 witness at the corpus `[sportArticle]`, every article of which the
content filter excludes. -/
theorem C10_empty_corpus_witness :
    clusterArticles 0 [sportArticle] = [] ∧ selectBestClusters [] = [] := by
  apply C10_empty_corpus
  intro a ha
  rw [List.mem_singleton] at ha
  subst ha
  decide

/-- C9 witness: the one cluster built from `[plainArticle]`. -/
noncomputable def plainCluster : ArticleCluster :=
  { id := "cluster-1", topic := "zzz", category := Category.geopolitique,
    importance := computeImportance 0 [plainArticle],
    articles := [plainArticle] }

set_option maxRecDepth 4000 in
theorem plainCluster_mem : plainCluster ∈ clusterArticles 0 [plainArticle] := by
  have hfil : filteredArticles [plainArticle] = [plainArticle] := by decide
  have hlist : clusterArticles 0 [plainArticle] = [plainCluster] := by
    unfold clusterArticles
    rw [hfil]
    simp [greedy, plainCluster]
    exact ⟨by decide, by decide, by decide⟩
  rw [hlist]
  exact List.mem_singleton.mpr rfl

theorem C9_importance_clamp_witness :
    plainCluster ∈ clusterArticles 0 [plainArticle] ∧
    1 ≤ plainCluster.importance ∧ plainCluster.importance ≤ 10 :=
  ⟨plainCluster_mem, C9_importance_clamp 0 [plainArticle] plainCluster plainCluster_mem⟩

/-- C8 witness data: a two-document corpus in which the term "coal" occurs
in every document. -/
def c8Docs : List (List String) := [["coal"], ["coal"]]

noncomputable def c8Vec : List (String × ℝ) := (buildTfIdf c8Docs).getD 0 []

noncomputable def c8Tw : String × ℝ := c8Vec.headD ("", 0)

theorem C8_tfidf_bounds_witness :
    c8Docs[0]? = some ["coal"] ∧ c8Tw ∈ c8Vec ∧
    (c8Tw.2 = (["coal"].count c8Tw.1 : ℝ) *
      Real.log ((c8Docs.length : ℝ) / (docFreq c8Docs c8Tw.1 : ℝ)) ∧
    0 ≤ c8Tw.2 ∧
    ((∀ d ∈ c8Docs, c8Tw.1 ∈ d) → c8Tw.2 = 0)) := by
  have hvec : c8Vec = [("coal", ((["coal"].count "coal" : ℕ) : ℝ) *
      Real.log ((c8Docs.length : ℝ) /
        ((if docFreq c8Docs "coal" = 0 then 1 else docFreq c8Docs "coal") : ℕ)))] := by
    unfold c8Vec
    rw [buildTfIdf_getD c8Docs 0 ["coal"] rfl]
    rfl
  have hmem : c8Tw ∈ c8Vec := by
    rw [show c8Tw = c8Vec.headD ("", 0) from rfl, hvec]
    exact List.mem_singleton.mpr rfl
  exact ⟨rfl, hmem, C8_tfidf_bounds c8Docs 0 ["coal"] rfl c8Tw (by rwa [← show c8Vec = (buildTfIdf c8Docs).getD 0 [] from rfl])⟩

/-- C6 witness at the one-article corpus `[plainArticle]`: the 0-th seed's
cluster is the seed together with the (empty) list of absorbed documents. -/
theorem C6_absorption_threshold_witness :
    ∃ c, (clusterArticles 0 [plainArticle])[0]? = some c ∧
      c.articles = [plainArticle] := by
  have hfil : filteredArticles [plainArticle] = [plainArticle] := by decide
  have hrem : remaining (simP [plainArticle]) 0 (filteredArticles [plainArticle]).enum =
      (0, plainArticle) :: [] := by
    rw [hfil]
    rfl
  obtain ⟨c, hc, harts⟩ :=
    C6_absorption_threshold 0 [plainArticle] 0 (0, plainArticle) [] hrem
  exact ⟨c, hc, by simpa using harts⟩

/-- C5 witness: the two-article corpus `[kyivArticle, zelenskyArticle]` —
no shared token, entity sets both exactly `["ukraine"]` — merges into one
cluster containing both. -/
theorem C5_entity_override_witness :
    (0.8 : ℝ) ≤ corpusSim [kyivArticle, zelenskyArticle] 0 1 ∧
    (0.20 : ℝ) ≤ corpusSim [kyivArticle, zelenskyArticle] 0 1 ∧
    ∃ c ∈ clusterArticles 0 [kyivArticle, zelenskyArticle],
      kyivArticle ∈ c.articles ∧ zelenskyArticle ∈ c.articles := by
  have hfil : filteredArticles [kyivArticle, zelenskyArticle] =
      [kyivArticle, zelenskyArticle] := by decide
  apply C5_entity_override 0 [kyivArticle, zelenskyArticle] 0 0 1 kyivArticle
    zelenskyArticle [(1, zelenskyArticle)]
  · rw [hfil]
    rfl
  · simp
  · intro t ht
    have hd0 : (corpusDocuments [kyivArticle, zelenskyArticle]).getD 0 [] =
        ["kyiv", "shelled", "overnight"] := by decide
    have hd1 : (corpusDocuments [kyivArticle, zelenskyArticle]).getD 1 [] =
        ["zelensky", "pleads", "assistance"] := by decide
    rw [hd0] at ht
    rw [hd1]
    fin_cases ht <;> decide
  · decide
  · decide

/-- C7 witness: two identical copies of `kyivArticle` (same title,
description and url, with entity "ukraine" extracted) end in one cluster. -/
theorem C7_exact_duplicate_witness :
    ∃ c ∈ clusterArticles 0 [kyivArticle, kyivArticle],
      kyivArticle ∈ c.articles ∧ kyivArticle ∈ c.articles := by
  have hfil : filteredArticles [kyivArticle, kyivArticle] =
      [kyivArticle, kyivArticle] := by decide
  apply C7_exact_duplicate 0 [kyivArticle, kyivArticle] 0 1 kyivArticle kyivArticle
    (by norm_num)
  · rw [hfil]
    rfl
  · rw [hfil]
    rfl
  · rfl
  · rfl
  · rfl
  · decide

/-- C7 counterexample: two articles with identical title, description and
url ("a", "", same url) — but no surviving token and no entity — have
combined similarity 0 and produce TWO independent singleton clusters, not
one cluster reflecting de-duplication.  This refutes the unconditional
claim. -/
theorem C7_duplicate_counterexample :
    corpusSim [emptyTokenArticle, emptyTokenArticle] 0 1 = 0 ∧
    (clusterArticles 0 [emptyTokenArticle, emptyTokenArticle]).length = 2 ∧
    ((clusterArticles 0 [emptyTokenArticle, emptyTokenArticle]).headD
      plainCluster).articles = [emptyTokenArticle] ∧
    ((clusterArticles 0 [emptyTokenArticle, emptyTokenArticle]).getD 1
      plainCluster).articles = [emptyTokenArticle] := by
  have hfil : filteredArticles [emptyTokenArticle, emptyTokenArticle] =
      [emptyTokenArticle, emptyTokenArticle] := by decide
  have hV : corpusVectors [emptyTokenArticle, emptyTokenArticle] = [[], []] := by
    unfold corpusVectors
    have hdocs : corpusDocuments [emptyTokenArticle, emptyTokenArticle] = [[], []] := by
      decide
    rw [hdocs]
    rfl
  have hE : corpusEntities [emptyTokenArticle, emptyTokenArticle] = [[], []] := by
    decide
  have hsim : corpusSim [emptyTokenArticle, emptyTokenArticle] 0 1 = 0 := by
    unfold corpusSim
    rw [hV, hE]
    simp [combinedSimilarity, cosineSimilarity, entitySimilarity, sqNorm, dotProduct]
  have hp : simP [emptyTokenArticle, emptyTokenArticle]
      (0, emptyTokenArticle) (1, emptyTokenArticle) = false := by
    simp only [simP, hsim, decide_eq_false_iff_not]
    norm_num
  have hgre : greedy (simP [emptyTokenArticle, emptyTokenArticle])
      (filteredArticles [emptyTokenArticle, emptyTokenArticle]).enum =
      [[(0, emptyTokenArticle)], [(1, emptyTokenArticle)]] := by
    rw [hfil]
    show greedy _ [(0, emptyTokenArticle), (1, emptyTokenArticle)] = _
    simp [greedy, hp]
  refine ⟨hsim, ?_, ?_, ?_⟩ <;>
    (unfold clusterArticles
     rw [hgre]
     simp)

/-! A corpus whose documents 0 and 1 have combined similarity exactly
0.20: five terms, each in exactly two of the three documents, so every idf
is `ln(3/2)`; documents 0 and 1 share one term of three each, giving cosine
1/3, no entities, and combined `0.6 × 1/3 = 0.20`. -/

def c6Article1 : RawArticle :=
  { id := "z1", title := "zebra wombat falcon", description := "",
    url := "http://x/z1", imageUrl := none, source := "s1",
    category := Category.geopolitique, publishedAt := 0, fetchedAt := 0 }

def c6Article2 : RawArticle :=
  { id := "z2", title := "zebra marmot badger", description := "",
    url := "http://x/z2", imageUrl := none, source := "s2",
    category := Category.geopolitique, publishedAt := 0, fetchedAt := 0 }

def c6Article3 : RawArticle :=
  { id := "z3", title := "wombat falcon marmot badger", description := "",
    url := "http://x/z3", imageUrl := none, source := "s3",
    category := Category.geopolitique, publishedAt := 0, fetchedAt := 0 }

/-- The corpus of the C6 counterexample. -/
def c6Corpus : List RawArticle := [c6Article1, c6Article2, c6Article3]

theorem c6_vector0 : (corpusVectors c6Corpus).getD 0 [] =
    [("zebra", Real.log ((3 : ℝ) / 2)), ("wombat", Real.log ((3 : ℝ) / 2)),
     ("falcon", Real.log ((3 : ℝ) / 2))] := by
  have hdocs : corpusDocuments c6Corpus =
      [["zebra", "wombat", "falcon"], ["zebra", "marmot", "badger"],
       ["wombat", "falcon", "marmot", "badger"]] := by decide
  have hk : keyOrder ["zebra", "wombat", "falcon"] = ["zebra", "wombat", "falcon"] := by
    decide
  unfold corpusVectors
  rw [hdocs, buildTfIdf_getD _ 0 ["zebra", "wombat", "falcon"] rfl, hk]
  have hdf1 : docFreq [["zebra", "wombat", "falcon"], ["zebra", "marmot", "badger"],
      ["wombat", "falcon", "marmot", "badger"]] "zebra" = 2 := by decide
  have hdf2 : docFreq [["zebra", "wombat", "falcon"], ["zebra", "marmot", "badger"],
      ["wombat", "falcon", "marmot", "badger"]] "wombat" = 2 := by decide
  have hdf3 : docFreq [["zebra", "wombat", "falcon"], ["zebra", "marmot", "badger"],
      ["wombat", "falcon", "marmot", "badger"]] "falcon" = 2 := by decide
  have hc1 : ["zebra", "wombat", "falcon"].count "zebra" = 1 := by decide
  have hc2 : ["zebra", "wombat", "falcon"].count "wombat" = 1 := by decide
  have hc3 : ["zebra", "wombat", "falcon"].count "falcon" = 1 := by decide
  simp only [List.map_cons, List.map_nil, hdf1, hdf2, hdf3, hc1, hc2, hc3]
  norm_num

theorem c6_vector1 : (corpusVectors c6Corpus).getD 1 [] =
    [("zebra", Real.log ((3 : ℝ) / 2)), ("marmot", Real.log ((3 : ℝ) / 2)),
     ("badger", Real.log ((3 : ℝ) / 2))] := by
  have hdocs : corpusDocuments c6Corpus =
      [["zebra", "wombat", "falcon"], ["zebra", "marmot", "badger"],
       ["wombat", "falcon", "marmot", "badger"]] := by decide
  have hk : keyOrder ["zebra", "marmot", "badger"] = ["zebra", "marmot", "badger"] := by
    decide
  unfold corpusVectors
  rw [hdocs, buildTfIdf_getD _ 1 ["zebra", "marmot", "badger"] rfl, hk]
  have hdf1 : docFreq [["zebra", "wombat", "falcon"], ["zebra", "marmot", "badger"],
      ["wombat", "falcon", "marmot", "badger"]] "zebra" = 2 := by decide
  have hdf2 : docFreq [["zebra", "wombat", "falcon"], ["zebra", "marmot", "badger"],
      ["wombat", "falcon", "marmot", "badger"]] "marmot" = 2 := by decide
  have hdf3 : docFreq [["zebra", "wombat", "falcon"], ["zebra", "marmot", "badger"],
      ["wombat", "falcon", "marmot", "badger"]] "badger" = 2 := by decide
  have hc1 : ["zebra", "marmot", "badger"].count "zebra" = 1 := by decide
  have hc2 : ["zebra", "marmot", "badger"].count "marmot" = 1 := by decide
  have hc3 : ["zebra", "marmot", "badger"].count "badger" = 1 := by decide
  simp only [List.map_cons, List.map_nil, hdf1, hdf2, hdf3, hc1, hc2, hc3]
  norm_num

theorem c6_sim_exact : corpusSim c6Corpus 0 1 = 0.20 := by
  have hL : 0 < Real.log ((3 : ℝ) / 2) := Real.log_pos (by norm_num)
  have hLL : 0 < Real.log ((3 : ℝ) / 2) * Real.log ((3 : ℝ) / 2) := mul_pos hL hL
  have hdot : dotProduct
      [("zebra", Real.log ((3 : ℝ) / 2)), ("wombat", Real.log ((3 : ℝ) / 2)),
       ("falcon", Real.log ((3 : ℝ) / 2))]
      [("zebra", Real.log ((3 : ℝ) / 2)), ("marmot", Real.log ((3 : ℝ) / 2)),
       ("badger", Real.log ((3 : ℝ) / 2))] =
      Real.log ((3 : ℝ) / 2) * Real.log ((3 : ℝ) / 2) := by
    simp [dotProduct, List.lookup]
  have hn0 : sqNorm [("zebra", Real.log ((3 : ℝ) / 2)),
      ("wombat", Real.log ((3 : ℝ) / 2)), ("falcon", Real.log ((3 : ℝ) / 2))] =
      3 * (Real.log ((3 : ℝ) / 2) * Real.log ((3 : ℝ) / 2)) := by
    simp [sqNorm]
    ring
  have hn1 : sqNorm [("zebra", Real.log ((3 : ℝ) / 2)),
      ("marmot", Real.log ((3 : ℝ) / 2)), ("badger", Real.log ((3 : ℝ) / 2))] =
      3 * (Real.log ((3 : ℝ) / 2) * Real.log ((3 : ℝ) / 2)) := by
    simp [sqNorm]
    ring
  have hcos : cosineSimilarity
      [("zebra", Real.log ((3 : ℝ) / 2)), ("wombat", Real.log ((3 : ℝ) / 2)),
       ("falcon", Real.log ((3 : ℝ) / 2))]
      [("zebra", Real.log ((3 : ℝ) / 2)), ("marmot", Real.log ((3 : ℝ) / 2)),
       ("badger", Real.log ((3 : ℝ) / 2))] = 1 / 3 := by
    unfold cosineSimilarity
    rw [hn0, hn1, hdot]
    rw [if_neg (by push_neg; constructor <;> positivity)]
    rw [Real.mul_self_sqrt (by positivity)]
    field_simp
    ring
  have hE0 : (corpusEntities c6Corpus).getD 0 [] = [] := by decide
  have hE1 : (corpusEntities c6Corpus).getD 1 [] = [] := by decide
  unfold corpusSim
  rw [c6_vector0, c6_vector1, hE0, hE1]
  simp only [combinedSimilarity, hcos]
  rw [show entitySimilarity [] [] = 0 by simp [entitySimilarity]]
  rw [if_neg (by norm_num)]
  norm_num

/-- C6 counterexample: in `c6Corpus`, document 1 has combined similarity to
the seed document 0 of exactly 0.20 — NOT strictly greater than the
threshold — and yet it IS absorbed into the seed's cluster, refuting the
claim's strict-inequality reading of the absorption rule. -/
theorem C6_absorption_counterexample :
    corpusSim c6Corpus 0 1 = 0.20 ∧
    ∃ c, (clusterArticles 0 c6Corpus)[0]? = some c ∧ c6Article2 ∈ c.articles := by
  refine ⟨c6_sim_exact, ?_⟩
  have hfil : filteredArticles c6Corpus = [c6Article1, c6Article2, c6Article3] := by
    decide
  have hrem : remaining (simP c6Corpus) 0 (filteredArticles c6Corpus).enum =
      (0, c6Article1) :: [(1, c6Article2), (2, c6Article3)] := by
    rw [hfil]
    rfl
  obtain ⟨c, hc, harts⟩ := clusterArticles_getElem? 0 c6Corpus 0 (0, c6Article1)
    [(1, c6Article2), (2, c6Article3)] hrem
  refine ⟨c, hc, ?_⟩
  rw [harts]
  apply List.mem_cons_of_mem
  have hp : simP c6Corpus (0, c6Article1) (1, c6Article2) = true := by
    simp only [simP, c6_sim_exact, decide_eq_true_eq]
    norm_num
  have hmemf : (1, c6Article2) ∈
      ([(1, c6Article2), (2, c6Article3)].filter (fun y => simP c6Corpus (0, c6Article1) y)) :=
    List.mem_filter.mpr ⟨by simp, hp⟩
  exact List.mem_map_of_mem Prod.snd hmemf

/-! Properties of the selector -/

theorem insertByImportance_perm (c : ArticleCluster) (l : List ArticleCluster) :
    (insertByImportance c l).Perm (c :: l) := by
  induction l with
  | nil => rfl
  | cons d rest ih =>
    rw [insertByImportance]
    by_cases h : c.importance < d.importance
    · rw [if_pos h]
      exact (ih.cons d).trans (List.Perm.swap c d rest)
    · rw [if_neg h]

theorem sortByImportance_perm (l : List ArticleCluster) :
    (sortByImportance l).Perm l := by
  induction l with
  | nil => rfl
  | cons c rest ih =>
    rw [sortByImportance]
    exact (insertByImportance_perm c (sortByImportance rest)).trans (ih.cons c)

theorem numSources_pos (c : ArticleCluster) (h : c.articles ≠ []) :
    1 ≤ numSources c := by
  unfold numSources
  match hc : c.articles with
  | [] => exact absurd hc h
  | a :: rest =>
    have hmem : a.source ∈ ((a :: rest).map (fun a => a.source)).dedup := by
      rw [List.mem_dedup]
      exact List.mem_map_of_mem _ (List.mem_cons_self _ _)
    exact List.length_pos.mpr (List.ne_nil_of_mem hmem)

/-- `multiSource ++ singleSource` is a permutation of the input clusters,
when every cluster has at least one article. -/
theorem allSorted_perm (clusters : List ArticleCluster)
    (hne : ∀ c ∈ clusters, c.articles ≠ []) :
    (sortByImportance (clusters.filter (fun c => decide (1 < numSources c))) ++
      sortByImportance (clusters.filter (fun c => decide (numSources c = 1)))).Perm
      clusters := by
  have hcongr : clusters.filter (fun c => decide (numSources c = 1)) =
      clusters.filter (fun c => !decide (1 < numSources c)) := by
    apply List.filter_congr
    intro c hc
    have h1 := numSources_pos c (hne c hc)
    by_cases h2 : 1 < numSources c
    · simp [h2, Nat.ne_of_gt h2]
    · have h3 : numSources c = 1 := le_antisymm (Nat.not_lt.mp h2) h1
      simp [h3]
  rw [hcongr]
  exact ((sortByImportance_perm _).append (sortByImportance_perm _)).trans
    (List.filter_append_perm _ clusters)

theorem isDuplicate_eq_false (CS sel : List ArticleCluster) (c : ArticleCluster)
    (hpair : ∀ c1 ∈ CS, ∀ c2 ∈ CS, c1 ≠ c2 → areSameTopic c1 c2 = false)
    (hsel : ∀ s ∈ sel, s ∈ CS) (hc : c ∈ CS) (hnotin : c ∉ sel) :
    isDuplicate sel c = false := by
  unfold isDuplicate
  rw [List.any_eq_false]
  intro s hs
  rw [hpair s (hsel s hs) c hc (fun he => hnotin (he ▸ hs))]
  simp

/-- When no candidate duplicates anything (pairwise non-duplicate world),
the category pass appends the first `target - added` candidates. -/
theorem categoryTake_eq (CS : List ArticleCluster)
    (hpair : ∀ c1 ∈ CS, ∀ c2 ∈ CS, c1 ≠ c2 → areSameTopic c1 c2 = false)
    (target : ℕ) (sel : List ArticleCluster) (added : ℕ)
    (cands : List ArticleCluster)
    (hsel : ∀ s ∈ sel, s ∈ CS) (hcands : ∀ c ∈ cands, c ∈ CS)
    (hdisj : ∀ c ∈ cands, c ∉ sel) (hndc : cands.Nodup) :
    categoryTake target sel added cands = sel ++ cands.take (target - added) := by
  induction cands generalizing sel added with
  | nil => simp [categoryTake]
  | cons c rest ih =>
    rw [categoryTake]
    by_cases hta : target ≤ added
    · rw [if_pos hta, Nat.sub_eq_zero_of_le hta]
      simp
    · rw [if_neg hta]
      have hdup : isDuplicate sel c = false :=
        isDuplicate_eq_false CS sel c hpair hsel (hcands c (List.mem_cons_self _ _))
          (hdisj c (List.mem_cons_self _ _))
      rw [hdup]
      simp only [Bool.not_false, if_true]
      rw [ih (sel ++ [c]) (added + 1)
        (fun s hs => by
          rcases List.mem_append.mp hs with h | h
          · exact hsel s h
          · rw [List.mem_singleton.mp h]
            exact hcands c (List.mem_cons_self _ _))
        (fun d hd => hcands d (List.mem_cons_of_mem c hd))
        (fun d hd hmem => by
          rcases List.mem_append.mp hmem with h | h
          · exact hdisj d (List.mem_cons_of_mem c hd) h
          · rw [List.mem_singleton.mp h] at hd
            exact (List.nodup_cons.mp hndc).1 hd)
        (List.nodup_cons.mp hndc).2]
      rw [List.append_assoc]
      congr 1
      have hta' : target - added = (target - (added + 1)) + 1 := by omega
      rw [hta']
      rfl

/-- In the pairwise non-duplicate world, backfill fills the selection up to
`tot` from the unselected candidates, preserving distinctness and the
ambient membership. -/
theorem backfill_spec (CS : List ArticleCluster)
    (hpair : ∀ c1 ∈ CS, ∀ c2 ∈ CS, c1 ≠ c2 → areSameTopic c1 c2 = false)
    (tot : ℕ) (sel : List ArticleCluster) (cands : List ArticleCluster)
    (hsel : ∀ s ∈ sel, s ∈ CS) (hcands : ∀ c ∈ cands, c ∈ CS)
    (hndsel : sel.Nodup) (hndc : cands.Nodup) (hselle : sel.length ≤ tot) :
    (backfill tot sel cands).length =
      min tot (sel.length + (cands.filter (fun c => !decide (c ∈ sel))).length) ∧
    (backfill tot sel cands).Nodup ∧
    ∀ x ∈ backfill tot sel cands, x ∈ CS := by
  induction cands generalizing sel with
  | nil =>
    refine ⟨?_, hndsel, hsel⟩
    simp only [backfill, List.filter_nil, List.length_nil, Nat.add_zero]
    omega
  | cons c rest ih =>
    rw [backfill]
    by_cases htot : tot ≤ sel.length
    · rw [if_pos htot]
      refine ⟨?_, hndsel, hsel⟩
      have : sel.length = tot := le_antisymm hselle htot
      omega
    · rw [if_neg htot]
      by_cases hin : c ∈ sel
      · have hfc : (c :: rest).filter (fun c => !decide (c ∈ sel)) =
            rest.filter (fun c => !decide (c ∈ sel)) := by
          simp [List.filter_cons, hin]
        rw [show (!decide (c ∈ sel) && !isDuplicate sel c) = false by simp [hin]]
        simp only [Bool.false_eq_true, if_false]
        rw [hfc] at *
        exact ih sel hsel (fun d hd => hcands d (List.mem_cons_of_mem c hd))
          hndsel (List.nodup_cons.mp hndc).2 hselle
      · have hdup : isDuplicate sel c = false :=
          isDuplicate_eq_false CS sel c hpair hsel (hcands c (List.mem_cons_self _ _)) hin
        rw [show (!decide (c ∈ sel) && !isDuplicate sel c) = true by simp [hin, hdup]]
        simp only [if_true]
        have hfilters : rest.filter (fun d => !decide (d ∈ sel ++ [c])) =
            rest.filter (fun d => !decide (d ∈ sel)) := by
          apply List.filter_congr
          intro d hd
          have hdc : d ≠ c := fun he => (List.nodup_cons.mp hndc).1 (he ▸ hd)
          simp [List.mem_append, hdc]
        obtain ⟨ihlen, ihnd, ihmem⟩ := ih (sel ++ [c])
          (fun s hs => by
            rcases List.mem_append.mp hs with h | h
            · exact hsel s h
            · rw [List.mem_singleton.mp h]
              exact hcands c (List.mem_cons_self _ _))
          (fun d hd => hcands d (List.mem_cons_of_mem c hd))
          (by
            rw [List.nodup_append]
            exact ⟨hndsel, List.nodup_singleton c,
              fun x hx hx1 => hin (List.mem_singleton.mp hx1 ▸ hx)⟩)
          (List.nodup_cons.mp hndc).2
          (by
            rw [List.length_append, List.length_singleton]
            omega)
        refine ⟨?_, ihnd, ihmem⟩
        rw [ihlen, hfilters]
        have hfc : ((c :: rest).filter (fun d => !decide (d ∈ sel))).length =
            (rest.filter (fun d => !decide (d ∈ sel))).length + 1 := by
          simp [List.filter_cons, hin]
        rw [hfc, List.length_append, List.length_singleton]
        omega

/-- C2 (amended).  Selector quota: for every duplicate-free cluster list of
length at least 6 in which ALL clusters are pairwise non-duplicate under the
`areSameTopic` rule (not merely some 6 of them — `C2_selector_counterexample`
shows the weaker hypothesis fails), each with at least one article, spanning
all three categories, `selectBestClusters` returns exactly 6 clusters
(6 = 4 + 1 + 1, the sum of the quota map), no two of which are duplicates of
each other under that rule. -/
theorem C2_selector_quota (clusters : List ArticleCluster)
    (hnd : clusters.Nodup)
    (hne : ∀ c ∈ clusters, c.articles ≠ [])
    (hpair : ∀ c1 ∈ clusters, ∀ c2 ∈ clusters, c1 ≠ c2 → areSameTopic c1 c2 = false)
    (hlen : 6 ≤ clusters.length)
    (hspan : ∀ cat : Category, ∃ c ∈ clusters, c.category = cat) :
    (selectBestClusters clusters).length = 6 ∧
    ∀ c1 ∈ selectBestClusters clusters, ∀ c2 ∈ selectBestClusters clusters,
      c1 ≠ c2 → areSameTopic c1 c2 = false := by
  have hAperm : (sortByImportance (clusters.filter (fun c => decide (1 < numSources c))) ++
      sortByImportance (clusters.filter (fun c => decide (numSources c = 1)))).Perm
      clusters := allSorted_perm clusters hne
  set A := sortByImportance (clusters.filter (fun c => decide (1 < numSources c))) ++
    sortByImportance (clusters.filter (fun c => decide (numSources c = 1))) with hA
  have hAnd : A.Nodup := hAperm.nodup_iff.mpr hnd
  have hAmem : ∀ c ∈ A, c ∈ clusters := fun c hc => hAperm.mem_iff.mp hc
  have hAlen : A.length = clusters.length := hAperm.length_eq
  set G := A.filter (fun c => decide (c.category = Category.geopolitique)) with hG
  set E := A.filter (fun c => decide (c.category = Category.economie)) with hE
  set P := A.filter (fun c => decide (c.category = Category.politique)) with hP
  have hGprop : ∀ c ∈ G, c ∈ clusters ∧ c.category = Category.geopolitique := by
    intro c hc
    have h := List.mem_filter.mp hc
    exact ⟨hAmem c h.1, by simpa using h.2⟩
  have hEprop : ∀ c ∈ E, c ∈ clusters ∧ c.category = Category.economie := by
    intro c hc
    have h := List.mem_filter.mp hc
    exact ⟨hAmem c h.1, by simpa using h.2⟩
  have hPprop : ∀ c ∈ P, c ∈ clusters ∧ c.category = Category.politique := by
    intro c hc
    have h := List.mem_filter.mp hc
    exact ⟨hAmem c h.1, by simpa using h.2⟩
  have hGnd : G.Nodup := hAnd.filter _
  have hEnd : E.Nodup := hAnd.filter _
  have hPnd : P.Nodup := hAnd.filter _
  have hkey : selectBestClusters clusters = sortByImportance
      (if (categoryTake 1 (categoryTake 1 (categoryTake 4 [] 0 G) 0 E) 0 P).length < 6
       then backfill 6 (categoryTake 1 (categoryTake 1 (categoryTake 4 [] 0 G) 0 E) 0 P) A
       else categoryTake 1 (categoryTake 1 (categoryTake 4 [] 0 G) 0 E) 0 P) := rfl
  have h1 : categoryTake 4 [] 0 G = G.take 4 := by
    rw [categoryTake_eq clusters hpair 4 [] 0 G (by simp)
      (fun c hc => (hGprop c hc).1) (by simp) hGnd]
    simp
  have hG4sub : ∀ s ∈ G.take 4, s ∈ G := fun s hs => (List.take_sublist 4 G).subset hs
  have h2 : categoryTake 1 (G.take 4) 0 E = G.take 4 ++ E.take 1 := by
    rw [categoryTake_eq clusters hpair 1 (G.take 4) 0 E
      (fun s hs => (hGprop s (hG4sub s hs)).1)
      (fun c hc => (hEprop c hc).1)
      (fun c hc hmem => by
        have hcE := (hEprop c hc).2
        have hcG := (hGprop c (hG4sub c hmem)).2
        rw [hcE] at hcG
        exact absurd hcG (by decide))
      hEnd]
  have hGE_sub : ∀ s ∈ G.take 4 ++ E.take 1, s ∈ clusters := by
    intro s hs
    rcases List.mem_append.mp hs with h | h
    · exact (hGprop s (hG4sub s h)).1
    · exact (hEprop s ((List.take_sublist 1 E).subset h)).1
  have h3 : categoryTake 1 (G.take 4 ++ E.take 1) 0 P =
      (G.take 4 ++ E.take 1) ++ P.take 1 := by
    rw [categoryTake_eq clusters hpair 1 (G.take 4 ++ E.take 1) 0 P
      hGE_sub
      (fun c hc => (hPprop c hc).1)
      (fun c hc hmem => by
        have hcP := (hPprop c hc).2
        rcases List.mem_append.mp hmem with h | h
        · have hcG := (hGprop c (hG4sub c h)).2
          rw [hcP] at hcG
          exact absurd hcG (by decide)
        · have hcE := (hEprop c ((List.take_sublist 1 E).subset h)).2
          rw [hcP] at hcE
          exact absurd hcE (by decide))
      hPnd]
  set AQ := (G.take 4 ++ E.take 1) ++ P.take 1 with hAQ
  have hAQsub : ∀ s ∈ AQ, s ∈ clusters := by
    intro s hs
    rcases List.mem_append.mp hs with h | h
    · exact hGE_sub s h
    · exact (hPprop s ((List.take_sublist 1 P).subset h)).1
  have hAQnd : AQ.Nodup := by
    rw [hAQ, List.nodup_append, List.nodup_append]
    refine ⟨⟨(List.take_sublist 4 G).nodup hGnd, (List.take_sublist 1 E).nodup hEnd, ?_⟩,
      (List.take_sublist 1 P).nodup hPnd, ?_⟩
    · intro x hxG hxE
      have h1x := (hGprop x (hG4sub x hxG)).2
      have h2x := (hEprop x ((List.take_sublist 1 E).subset hxE)).2
      rw [h1x] at h2x
      exact absurd h2x (by decide)
    · intro x hxGE hxP
      have h2x := (hPprop x ((List.take_sublist 1 P).subset hxP)).2
      rcases List.mem_append.mp hxGE with h | h
      · have h1x := (hGprop x (hG4sub x h)).2
        rw [h2x] at h1x
        exact absurd h1x (by decide)
      · have h1x := (hEprop x ((List.take_sublist 1 E).subset h)).2
        rw [h2x] at h1x
        exact absurd h1x (by decide)
  have hAQle : AQ.length ≤ 6 := by
    rw [hAQ, List.length_append, List.length_append, List.length_take,
      List.length_take, List.length_take]
    omega
  rw [hkey, h1, h2, h3]
  have hfinal : ∀ fl : List ArticleCluster, fl.length = 6 → fl.Nodup →
      (∀ x ∈ fl, x ∈ clusters) →
      (sortByImportance fl).length = 6 ∧
      ∀ c1 ∈ sortByImportance fl, ∀ c2 ∈ sortByImportance fl,
        c1 ≠ c2 → areSameTopic c1 c2 = false := by
    intro fl hfl hflnd hflmem
    have hperm := sortByImportance_perm fl
    refine ⟨by rw [hperm.length_eq, hfl], ?_⟩
    intro c1 hc1 c2 hc2 hne12
    exact hpair c1 (hflmem c1 (hperm.mem_iff.mp hc1)) c2
      (hflmem c2 (hperm.mem_iff.mp hc2)) hne12
  by_cases hcase : AQ.length < 6
  · rw [if_pos hcase]
    obtain ⟨hblen, hbnd, hbmem⟩ := backfill_spec clusters hpair 6 AQ A
      hAQsub hAmem hAQnd hAnd (le_of_lt hcase)
    have hinle : (A.filter (fun c => decide (c ∈ AQ))).length ≤ AQ.length := by
      have hFnd : (A.filter (fun c => decide (c ∈ AQ))).Nodup := hAnd.filter _
      have hFsub : (A.filter (fun c => decide (c ∈ AQ))).toFinset ⊆ AQ.toFinset := by
        intro x hx
        rw [List.mem_toFinset] at hx ⊢
        have := List.mem_filter.mp hx
        simpa using this.2
      calc (A.filter (fun c => decide (c ∈ AQ))).length
          = (A.filter (fun c => decide (c ∈ AQ))).toFinset.card :=
            (List.toFinset_card_of_nodup hFnd).symm
        _ ≤ AQ.toFinset.card := Finset.card_le_card hFsub
        _ ≤ AQ.length := List.toFinset_card_le AQ
    have hpartition : (A.filter (fun c => decide (c ∈ AQ))).length +
        (A.filter (fun c => !decide (c ∈ AQ))).length = A.length := by
      have hp := (List.filter_append_perm (fun c => decide (c ∈ AQ)) A).length_eq
      rw [List.length_append] at hp
      exact hp
    have hlen6 : (backfill 6 AQ A).length = 6 := by
      rw [hblen]
      omega
    exact hfinal (backfill 6 AQ A) hlen6 hbnd hbmem
  · rw [if_neg hcase]
    have hAQ6 : AQ.length = 6 := le_antisymm hAQle (Nat.le_of_not_lt hcase)
    exact hfinal AQ hAQ6 hAQnd hAQsub

theorem areSameTopic_true_of_sharedUrl (c1 c2 : ArticleCluster)
    (h : 0 < sharedUrlCount c1 c2) : areSameTopic c1 c2 = true := by
  simp only [areSameTopic]
  by_cases h1 : (0.5 : ℝ) ≤ entitySimilarity (extractEntities (joinedText c1))
      (extractEntities (joinedText c2))
  · rw [if_pos h1]
  · rw [if_neg h1, if_pos h]

theorem areSameTopic_false_of (c1 c2 : ArticleCluster)
    (hent : extractEntities (joinedText c1) = [])
    (hurl : sharedUrlCount c1 c2 = 0) : areSameTopic c1 c2 = false := by
  simp only [areSameTopic]
  rw [hent]
  rw [show entitySimilarity [] (extractEntities (joinedText c2)) = 0 by
    simp [entitySimilarity]]
  rw [if_neg (by norm_num), if_neg (by rw [hurl]; simp), cosine_two_doc_zero,
    if_neg (by norm_num)]

/-! Selector fixtures: one high-priority cluster sharing a URL with each
of six otherwise pairwise non-duplicate clusters -/

/-- An article fixture with an empty title and description. -/
def blankArticle (tag url src : String) (cat : Category) : RawArticle :=
  { id := tag, title := "", description := "", url := url, imageUrl := none,
    source := src, category := cat, publishedAt := 0, fetchedAt := 0 }

/-- A singleton cluster fixture with an empty text (no entities, no tokens). -/
def singletonCluster (tag url src : String) (cat : Category) (imp : ℤ) :
    ArticleCluster :=
  { id := tag, topic := "", category := cat, importance := imp,
    articles := [blankArticle tag url src cat] }

def c2Quota1 : ArticleCluster :=
  singletonCluster "q1" "u1" "t1" Category.geopolitique 5
def c2Quota2 : ArticleCluster :=
  singletonCluster "q2" "u2" "t2" Category.geopolitique 5
def c2Quota3 : ArticleCluster :=
  singletonCluster "q3" "u3" "t3" Category.geopolitique 5
def c2Quota4 : ArticleCluster :=
  singletonCluster "q4" "u4" "t4" Category.geopolitique 5
def c2Quota5 : ArticleCluster :=
  singletonCluster "q5" "u5" "t5" Category.economie 5
def c2Quota6 : ArticleCluster :=
  singletonCluster "q6" "u6" "t6" Category.politique 5

/-- A multi-source cluster of importance 10 sharing one URL with each of the
six quota fixtures: it duplicates every one of them under `areSameTopic`
while they are pairwise non-duplicate among themselves. -/
def c2Blocker : ArticleCluster :=
  { id := "B", topic := "", category := Category.geopolitique, importance := 10,
    articles := [
      blankArticle "b1" "u1" "sA" Category.geopolitique,
      blankArticle "b2" "u2" "sB" Category.geopolitique,
      blankArticle "b3" "u3" "sC" Category.geopolitique,
      blankArticle "b4" "u4" "sD" Category.geopolitique,
      blankArticle "b5" "u5" "sE" Category.geopolitique,
      blankArticle "b6" "u6" "sF" Category.geopolitique] }

def c2QuotaList : List ArticleCluster :=
  [c2Quota1, c2Quota2, c2Quota3, c2Quota4, c2Quota5, c2Quota6]

theorem c2Quota_pairwise : ∀ a ∈ c2QuotaList, ∀ b ∈ c2QuotaList,
    a ≠ b → areSameTopic a b = false := by
  intro a ha b hb hne
  fin_cases ha <;> fin_cases hb <;>
    first
      | exact absurd rfl hne
      | exact areSameTopic_false_of _ _ (by decide) (by decide)

/-- The C2 counterexample input: the blocker first, then the six quota
fixtures. -/
def c2Input : List ArticleCluster :=
  [c2Blocker, c2Quota1, c2Quota2, c2Quota3, c2Quota4, c2Quota5, c2Quota6]

/-- C2 counterexample: `c2Input` contains six pairwise non-duplicate
clusters spanning all three categories (the claim's hypothesis), yet
`selectBestClusters` returns a single cluster: the higher-priority blocker
is selected first and every one of the six is then skipped as its
duplicate.  The frozen claim's "at least 6 pairwise non-duplicate clusters
suffice" is therefore false. -/
theorem C2_selector_counterexample :
    List.Pairwise (fun a b => areSameTopic a b = false ∧ areSameTopic b a = false)
      c2QuotaList ∧
    c2QuotaList.Sublist c2Input ∧
    c2QuotaList.length = 6 ∧
    c2Quota1.category = Category.geopolitique ∧
    c2Quota5.category = Category.economie ∧
    c2Quota6.category = Category.politique ∧
    (selectBestClusters c2Input).length = 1 := by
  have hpw : List.Pairwise
      (fun a b => areSameTopic a b = false ∧ areSameTopic b a = false) c2QuotaList := by
    have hnd : c2QuotaList.Nodup := by decide
    exact hnd.imp_of_mem (fun ha hb hne =>
      ⟨c2Quota_pairwise _ ha _ hb hne, c2Quota_pairwise _ hb _ ha (Ne.symm hne)⟩)
  have hB1 : areSameTopic c2Blocker c2Quota1 = true :=
    areSameTopic_true_of_sharedUrl _ _ (by decide)
  have hB2 : areSameTopic c2Blocker c2Quota2 = true :=
    areSameTopic_true_of_sharedUrl _ _ (by decide)
  have hB3 : areSameTopic c2Blocker c2Quota3 = true :=
    areSameTopic_true_of_sharedUrl _ _ (by decide)
  have hB4 : areSameTopic c2Blocker c2Quota4 = true :=
    areSameTopic_true_of_sharedUrl _ _ (by decide)
  have hB5 : areSameTopic c2Blocker c2Quota5 = true :=
    areSameTopic_true_of_sharedUrl _ _ (by decide)
  have hB6 : areSameTopic c2Blocker c2Quota6 = true :=
    areSameTopic_true_of_sharedUrl _ _ (by decide)
  have hdB : isDuplicate [] c2Blocker = false := by simp [isDuplicate]
  have hdq1 : isDuplicate [c2Blocker] c2Quota1 = true := by simp [isDuplicate, hB1]
  have hdq2 : isDuplicate [c2Blocker] c2Quota2 = true := by simp [isDuplicate, hB2]
  have hdq3 : isDuplicate [c2Blocker] c2Quota3 = true := by simp [isDuplicate, hB3]
  have hdq4 : isDuplicate [c2Blocker] c2Quota4 = true := by simp [isDuplicate, hB4]
  have hdq5 : isDuplicate [c2Blocker] c2Quota5 = true := by simp [isDuplicate, hB5]
  have hdq6 : isDuplicate [c2Blocker] c2Quota6 = true := by simp [isDuplicate, hB6]
  have hkey : selectBestClusters c2Input = sortByImportance
      (if (categoryTake 1 (categoryTake 1 (categoryTake 4 [] 0
          ((sortByImportance (c2Input.filter (fun c => decide (1 < numSources c))) ++
            sortByImportance (c2Input.filter (fun c => decide (numSources c = 1)))).filter
            (fun c => decide (c.category = Category.geopolitique)))) 0
          ((sortByImportance (c2Input.filter (fun c => decide (1 < numSources c))) ++
            sortByImportance (c2Input.filter (fun c => decide (numSources c = 1)))).filter
            (fun c => decide (c.category = Category.economie)))) 0
          ((sortByImportance (c2Input.filter (fun c => decide (1 < numSources c))) ++
            sortByImportance (c2Input.filter (fun c => decide (numSources c = 1)))).filter
            (fun c => decide (c.category = Category.politique)))).length < 6
       then backfill 6 (categoryTake 1 (categoryTake 1 (categoryTake 4 [] 0
          ((sortByImportance (c2Input.filter (fun c => decide (1 < numSources c))) ++
            sortByImportance (c2Input.filter (fun c => decide (numSources c = 1)))).filter
            (fun c => decide (c.category = Category.geopolitique)))) 0
          ((sortByImportance (c2Input.filter (fun c => decide (1 < numSources c))) ++
            sortByImportance (c2Input.filter (fun c => decide (numSources c = 1)))).filter
            (fun c => decide (c.category = Category.economie)))) 0
          ((sortByImportance (c2Input.filter (fun c => decide (1 < numSources c))) ++
            sortByImportance (c2Input.filter (fun c => decide (numSources c = 1)))).filter
            (fun c => decide (c.category = Category.politique))))
          (sortByImportance (c2Input.filter (fun c => decide (1 < numSources c))) ++
            sortByImportance (c2Input.filter (fun c => decide (numSources c = 1))))
       else categoryTake 1 (categoryTake 1 (categoryTake 4 [] 0
          ((sortByImportance (c2Input.filter (fun c => decide (1 < numSources c))) ++
            sortByImportance (c2Input.filter (fun c => decide (numSources c = 1)))).filter
            (fun c => decide (c.category = Category.geopolitique)))) 0
          ((sortByImportance (c2Input.filter (fun c => decide (1 < numSources c))) ++
            sortByImportance (c2Input.filter (fun c => decide (numSources c = 1)))).filter
            (fun c => decide (c.category = Category.economie)))) 0
          ((sortByImportance (c2Input.filter (fun c => decide (1 < numSources c))) ++
            sortByImportance (c2Input.filter (fun c => decide (numSources c = 1)))).filter
            (fun c => decide (c.category = Category.politique)))) := rfl
  have hfilms : c2Input.filter (fun c => decide (1 < numSources c)) = [c2Blocker] := by
    decide
  have hfilss : c2Input.filter (fun c => decide (numSources c = 1)) = c2QuotaList := by
    decide
  have hsortB : sortByImportance [c2Blocker] = [c2Blocker] := by decide
  have hsortQ : sortByImportance c2QuotaList = c2QuotaList := by decide
  have hAlit : [c2Blocker] ++ c2QuotaList =
      [c2Blocker, c2Quota1, c2Quota2, c2Quota3, c2Quota4, c2Quota5, c2Quota6] := rfl
  have hbg : [c2Blocker, c2Quota1, c2Quota2, c2Quota3, c2Quota4, c2Quota5,
      c2Quota6].filter (fun c => decide (c.category = Category.geopolitique)) =
      [c2Blocker, c2Quota1, c2Quota2, c2Quota3, c2Quota4] := by decide
  have hbe : [c2Blocker, c2Quota1, c2Quota2, c2Quota3, c2Quota4, c2Quota5,
      c2Quota6].filter (fun c => decide (c.category = Category.economie)) =
      [c2Quota5] := by decide
  have hbp : [c2Blocker, c2Quota1, c2Quota2, c2Quota3, c2Quota4, c2Quota5,
      c2Quota6].filter (fun c => decide (c.category = Category.politique)) =
      [c2Quota6] := by decide
  have hctg : categoryTake 4 [] 0 [c2Blocker, c2Quota1, c2Quota2, c2Quota3, c2Quota4] =
      [c2Blocker] := by
    simp [categoryTake, hdB, hdq1, hdq2, hdq3, hdq4]
  have hcte : categoryTake 1 [c2Blocker] 0 [c2Quota5] = [c2Blocker] := by
    simp [categoryTake, hdq5]
  have hctp : categoryTake 1 [c2Blocker] 0 [c2Quota6] = [c2Blocker] := by
    simp [categoryTake, hdq6]
  have hmB : decide (c2Blocker ∈ [c2Blocker]) = true := by decide
  have hm1 : decide (c2Quota1 ∈ [c2Blocker]) = false := by decide
  have hm2 : decide (c2Quota2 ∈ [c2Blocker]) = false := by decide
  have hm3 : decide (c2Quota3 ∈ [c2Blocker]) = false := by decide
  have hm4 : decide (c2Quota4 ∈ [c2Blocker]) = false := by decide
  have hm5 : decide (c2Quota5 ∈ [c2Blocker]) = false := by decide
  have hm6 : decide (c2Quota6 ∈ [c2Blocker]) = false := by decide
  have hbf : backfill 6 [c2Blocker]
      [c2Blocker, c2Quota1, c2Quota2, c2Quota3, c2Quota4, c2Quota5, c2Quota6] =
      [c2Blocker] := by
    simp [backfill, hmB, hm1, hm2, hm3, hm4, hm5, hm6, hdq1, hdq2, hdq3, hdq4,
      hdq5, hdq6]
  refine ⟨hpw, by decide, by decide, rfl, rfl, rfl, ?_⟩
  rw [hkey, hfilms, hfilss, hsortB, hsortQ, hAlit, hbg, hbe, hbp, hctg, hcte, hctp]
  rw [if_pos (by norm_num), hbf, hsortB]
  rfl

/-- C2 witness: on the six pairwise non-duplicate quota fixtures alone
(distinct, each with one article, spanning the three categories), the
selector returns exactly 6 clusters. -/
theorem C2_selector_quota_witness :
    (selectBestClusters c2QuotaList).length = 6 := by
  refine (C2_selector_quota c2QuotaList (by decide) (by decide)
    c2Quota_pairwise (by decide) ?_).1
  intro cat
  cases cat
  · exact ⟨c2Quota1, by decide, rfl⟩
  · exact ⟨c2Quota5, by decide, rfl⟩
  · exact ⟨c2Quota6, by decide, rfl⟩

end Avactu
